import Mathlib

/-!
# ardrone_velocity_ekf: the velocity controller `PI_PD_Control`

A shallow embedding of `velocity_control/src/pi_pd_control.cpp`.

Modelling conventions.
* A C++ `double` that is stored in the controller is a rational number: arithmetic is
  exact, rounding and overflow are not modelled.
* The two places where the source divides (`.../dt.toSec()` in the derivative term and
  `.../(command.linear.x - old_ref(0))` in the feedforward gate) can divide by zero.  The
  quotient is therefore a `Dbl`: a rational, or one of the three non-finite results a
  `double` division by zero produces.  The few operations the source applies to such a
  quotient (scaling by a gain, adding finite terms, `std::abs`, `<`, `std::min`/`std::max`)
  are defined on `Dbl` with the C++ meaning.
* The members, the messages and the arguments of `i_term_set` are finite in this model.
  What `i_term_set` and the integral update of a cycle do with an infinite or NaN double
  (the odometry is not validated) is given by `Dbl.i_term_set` and `Dbl.cycle_i_term`,
  which follow the source on all of `Dbl` and agree with the finite model on finite
  arguments.
* `ros::Time::now()` is an input of the cycle (`now`), in seconds.
* `filterx`/`filtery` are objects of a class declared in
  `ardrone_velocity/filtervelocity.hpp`, which is not part of the sources at hand: the
  filter state type `F` and its method `lowpass_filter` are parameters.
* Publishing on a topic is modelled by returning the published messages.
-/

namespace PIPD

/-! ## Data model -/

/-- Quotient of two doubles: finite, or the result of a division by zero. -/
inductive Dbl where
  | fin (q : ℚ)
  | pinf
  | ninf
  | nan
deriving DecidableEq

/-- The class `Eigen::Vector2d`: component 0 is the x axis, component 1 the y axis. -/
structure Vector2d where
  c0 : ℚ
  c1 : ℚ
deriving DecidableEq

/-- The class `Eigen::Vector3d`. -/
structure Vector3d where
  c0 : ℚ
  c1 : ℚ
  c2 : ℚ
deriving DecidableEq

/-- The message part `geometry_msgs::Vector3`. -/
structure Vector3 where
  x : ℚ
  y : ℚ
  z : ℚ
deriving DecidableEq

/-- The message `geometry_msgs::Twist`. -/
structure Twist where
  linear : Vector3
  angular : Vector3
deriving DecidableEq

/-- The request of a reconfiguration, `velocity_control::dynamic_param_configConfig`,
with the fields `dynamic_reconfigure_callback` reads. -/
structure Config where
  Kp : ℚ
  Ki : ℚ
  Kd : ℚ
  windup : ℚ
  beta : ℚ
  limit_x : ℚ
  limit_y : ℚ
  derv_filter : Bool
  derv_median : Bool
  derv_smith : Bool
deriving DecidableEq

/-- The velocity filter class of `filtervelocity.hpp`: a state of type `F` and the method
`lowpass_filter`, which returns the filtered sample and the filter's next state. -/
structure FilterVelocity (F : Type) where
  lowpass_filter : F → ℚ → ℚ × F

/-- The members of `PI_PD_Control` (and the file-scope variable `first_reconfig`).
The matrix member `Control` is written before it is read in every cycle, so its rows are
part of the cycle's result (`Cycle`) and not of the state. -/
structure Controller (F : Type) where
  command : Twist
  odo : Twist
  vel_xy : Vector2d
  error_xy : Vector2d
  command_vec : Vector2d
  old_command_vec : Vector2d
  old_ref : Vector2d
  old_vel_xy : Vector2d
  i_term : Vector2d
  gain_xy : Vector3d
  wind_up : Vector2d
  max_output : Vector2d
  beta : ℚ
  derv_filter : Bool
  derv_median : Bool
  derv_smith : Bool
  switch_ref : Bool
  curTime : ℚ
  oldTime : ℚ
  navPing : ℚ
  control_output_old : Twist
  filterx : F
  filtery : F
  first_reconfig : Bool

/-- What one run of `pid_control` computes and publishes, per axis where it applies:
`control_output` goes to `cmd_pub`, `ref_vel` to `ref_vel_pub`; the other fields are the
locals of the cycle (`dt`, the rows of `Control`, the clamped PID output, the feedforward
after the gate). -/
structure Cycle where
  dt : ℚ
  p_term : Vector2d
  i_term : Vector2d
  d_term_x : Dbl
  d_term_y : Dbl
  control_output_pid : Twist
  control_output_feedforward : Vector2d
  control_output : Twist
  ref_vel : Twist

/-! ## Arithmetic on quotients -/

/-- The double division `a / b`. -/
def Dbl.div (a b : ℚ) : Dbl :=
  if b ≠ 0 then Dbl.fin (a / b)
  else if 0 < a then Dbl.pinf
  else if a < 0 then Dbl.ninf
  else Dbl.nan

/-- The product `d * g` of a quotient with a finite double. -/
def Dbl.mul (d : Dbl) (g : ℚ) : Dbl :=
  match d with
  | Dbl.fin q => Dbl.fin (q * g)
  | Dbl.pinf => if 0 < g then Dbl.pinf else if g < 0 then Dbl.ninf else Dbl.nan
  | Dbl.ninf => if 0 < g then Dbl.ninf else if g < 0 then Dbl.pinf else Dbl.nan
  | Dbl.nan => Dbl.nan

/-- The sum `q + d` of a finite double and a quotient. -/
def Dbl.add (q : ℚ) (d : Dbl) : Dbl :=
  match d with
  | Dbl.fin r => Dbl.fin (q + r)
  | Dbl.pinf => Dbl.pinf
  | Dbl.ninf => Dbl.ninf
  | Dbl.nan => Dbl.nan

/-- The test `std::abs(d) < q`; a comparison with NaN is false. -/
def Dbl.absLt (d : Dbl) (q : ℚ) : Bool :=
  match d with
  | Dbl.fin r => decide (|r| < q)
  | Dbl.pinf => false
  | Dbl.ninf => false
  | Dbl.nan => false

/-- The expression `std::min(m, std::max(-m, d))`, with `std::max(a, b) = (a < b) ? b : a`
and `std::min(a, b) = (b < a) ? b : a`. -/
def Dbl.clamp (m : ℚ) (d : Dbl) : ℚ :=
  match d with
  | Dbl.fin q => min m (max (-m) q)
  | Dbl.pinf => m
  | Dbl.ninf => min m (-m)
  | Dbl.nan => min m (-m)

/-- The expression `std::min(m, std::max(-m, v))` on finite doubles. -/
def clamp (m v : ℚ) : ℚ := min m (max (-m) v)

/-! ## Operations of the controller -/

/-- `PingCallback`, after the string of the message is parsed to the number `ping`. -/
def PingCallback {F : Type} (s : Controller F) (ping : ℚ) : Controller F :=
  { s with navPing := ping * (1 / 1000) }

/-- `dynamic_reconfigure_callback`. -/
def dynamic_reconfigure_callback {F : Type} (s : Controller F) (config : Config) :
    Controller F :=
  if s.first_reconfig then
    { s with first_reconfig := false }
  else
    { s with
      gain_xy := ⟨config.Kp, config.Ki, config.Kd⟩
      wind_up := ⟨config.windup, config.windup⟩
      beta := config.beta
      max_output := ⟨config.limit_x, config.limit_y⟩
      derv_filter := config.derv_filter
      derv_median := config.derv_median
      derv_smith := config.derv_smith }

/-- The constructor.  It registers the callbacks and, with `m_server.setCallback(f)`
(line 29), has the reconfigure server call `dynamic_reconfigure_callback` once, with the
server's start-up configuration `startup`; after that it assigns the default values
(lines 32-48).  The members it leaves unassigned are taken from `s`. -/
def construct {F : Type} (s : Controller F) (startup : Config) : Controller F :=
  { dynamic_reconfigure_callback s startup with
    i_term := ⟨0, 0⟩
    gain_xy := ⟨45 / 100, 15 / 100, 5 / 100⟩
    wind_up := ⟨6 / 10, 6 / 10⟩
    max_output := ⟨5 / 10, 5 / 10⟩
    beta := 9 / 10
    derv_filter := false
    derv_median := false
    derv_smith := true }

/-- `InputCallback`. -/
def InputCallback {F : Type} (s : Controller F) (cmd_in : Twist) : Controller F :=
  { s with command := cmd_in }

/-- `i_term_set`; the result is the value left in the reference parameter `i_value`. -/
def i_term_set (i_value error vel old_vel wind_up dt : ℚ) : ℚ :=
  let i1 := if error < 0 ∧ i_value > 0 then max 0 (i_value + error * dt) else i_value
  let i2 := if error > 0 ∧ i1 < 0 then min 0 (i1 + error * dt) else i1 + error * dt
  let i3 := if i2 > wind_up then wind_up else i2
  let i4 := if i3 < -wind_up then -wind_up else i3
  if vel ≠ old_vel then 0 else i4

/-- The constant `0.37/9.81*180/3.14/12` of the feedforward. -/
def staticGain : ℚ := 37 / 100 / (981 / 100) * 180 / (314 / 100) / 12

/-- The feedforward of one axis after its gate: `ff` is the feedforward before the gate,
`cmd` the clamped reference, `vel` the measurement, `oref` the entry of `old_ref`. -/
def gate (ff cmd vel oref : ℚ) (switch_ref : Bool) : ℚ :=
  if Dbl.absLt (Dbl.div (cmd - vel) (cmd - oref)) (25 / 100) ∨ switch_ref = false then 0
  else ff

/-- `pid_control`: the state after the cycle and what the cycle computed. -/
def pid_control {F : Type} (flt : FilterVelocity F) (s : Controller F) (now : ℚ) :
    Controller F × Cycle :=
  let gain_xy : Vector3d := ⟨45 / 100, 15 / 100, 35 / 100⟩
  let cx := clamp (6 / 10) s.command.linear.x
  let cy := clamp (6 / 10) s.command.linear.y
  let command : Twist :=
    { linear := { s.command.linear with x := cx, y := cy }
      angular := { s.command.angular with x := 1, y := 1 } }
  let command_vec : Vector2d := ⟨cx, cy⟩
  let dt := now - s.oldTime
  let beta : ℚ := 1
  let error_xy : Vector2d := ⟨beta * cx - s.vel_xy.c0, beta * cy - s.vel_xy.c1⟩
  let fx := flt.lowpass_filter s.filterx s.vel_xy.c0
  let fy := flt.lowpass_filter s.filtery s.vel_xy.c1
  let filtered_vel : Vector2d := ⟨fx.1, fy.1⟩
  let error_vel_x := Dbl.div (-(filtered_vel.c0 - s.old_vel_xy.c0)) dt
  let error_vel_y := Dbl.div (-(filtered_vel.c1 - s.old_vel_xy.c1)) dt
  let wind_up : Vector2d := ⟨6 / 10, 6 / 10⟩
  let i_term : Vector2d :=
    ⟨i_term_set s.i_term.c0 error_xy.c0 command_vec.c0 s.old_command_vec.c0 wind_up.c0 dt,
     i_term_set s.i_term.c1 error_xy.c1 command_vec.c1 s.old_command_vec.c1 wind_up.c1 dt⟩
  let chx := decide (command_vec.c0 ≠ s.old_command_vec.c0)
  let chy := decide (command_vec.c1 ≠ s.old_command_vec.c1)
  let old_ref : Vector2d :=
    ⟨if chx then s.old_command_vec.c0 else s.old_ref.c0,
     if chy then s.old_command_vec.c1 else s.old_ref.c1⟩
  let switch_ref_x := if chx then true else s.switch_ref
  let switch_ref := if chy then true else switch_ref_x
  let max : Vector2d := ⟨5 / 10, 5 / 10⟩
  let pid_x :=
    Dbl.clamp max.c0
      (Dbl.add (error_xy.c0 * gain_xy.c0 + i_term.c0 * gain_xy.c1)
        (Dbl.mul error_vel_x gain_xy.c2))
  let pid_y :=
    Dbl.clamp max.c1
      (Dbl.add (error_xy.c1 * gain_xy.c0 + i_term.c1 * gain_xy.c1)
        (Dbl.mul error_vel_y gain_xy.c2))
  let control_output_pid : Twist := ⟨⟨pid_x, pid_y, 0⟩, ⟨1, 1, 0⟩⟩
  let ff_x := gate (staticGain * cx) cx s.vel_xy.c0 old_ref.c0 switch_ref
  let ff_y := gate (staticGain * cy) cy s.vel_xy.c1 old_ref.c1 switch_ref
  let control_output : Twist :=
    ⟨⟨clamp max.c0 (5 / 10 * ff_x + pid_x), clamp max.c1 (5 / 10 * ff_y + pid_y), 0⟩,
     ⟨0, 0, 0⟩⟩
  ({ s with
      gain_xy := gain_xy
      command := command
      command_vec := command_vec
      curTime := now
      oldTime := now
      error_xy := error_xy
      old_vel_xy := filtered_vel
      filterx := fx.2
      filtery := fy.2
      i_term := i_term
      old_ref := old_ref
      switch_ref := switch_ref
      old_command_vec := command_vec
      control_output_old := control_output_pid },
   { dt := dt
     p_term := error_xy
     i_term := i_term
     d_term_x := error_vel_x
     d_term_y := error_vel_y
     control_output_pid := control_output_pid
     control_output_feedforward := ⟨ff_x, ff_y⟩
     control_output := control_output
     ref_vel := command })

/-- `OdoCallback`: store the measured velocity and run one cycle. -/
def OdoCallback {F : Type} (flt : FilterVelocity F) (s : Controller F) (odo_msg : Twist)
    (now : ℚ) : Controller F × Cycle :=
  pid_control flt
    { s with odo := odo_msg, vel_xy := ⟨odo_msg.linear.x, odo_msg.linear.y⟩ } now

/-- `set_hover`: the message published on `cmd_pub`. -/
def set_hover : Twist := ⟨⟨0, 0, 0⟩, ⟨0, 0, 0⟩⟩

/-! ## Doubles with the non-finite values -/

/-- The comparison `a < b` of doubles; false when an operand is NaN. -/
def Dbl.flt : Dbl → Dbl → Bool
  | Dbl.fin a, Dbl.fin b => decide (a < b)
  | Dbl.fin _, Dbl.pinf => true
  | Dbl.ninf, Dbl.fin _ => true
  | Dbl.ninf, Dbl.pinf => true
  | _, _ => false

/-- The comparison `a != b` of doubles; true when an operand is NaN. -/
def Dbl.fne : Dbl → Dbl → Bool
  | Dbl.fin a, Dbl.fin b => decide (a ≠ b)
  | Dbl.pinf, Dbl.pinf => false
  | Dbl.ninf, Dbl.ninf => false
  | _, _ => true

/-- The negation `-a` of a double. -/
def Dbl.fneg : Dbl → Dbl
  | Dbl.fin a => Dbl.fin (-a)
  | Dbl.pinf => Dbl.ninf
  | Dbl.ninf => Dbl.pinf
  | Dbl.nan => Dbl.nan

/-- The sum `a + b` of doubles. -/
def Dbl.fadd : Dbl → Dbl → Dbl
  | Dbl.fin a, b => Dbl.add a b
  | Dbl.nan, _ => Dbl.nan
  | Dbl.pinf, Dbl.fin _ => Dbl.pinf
  | Dbl.pinf, Dbl.pinf => Dbl.pinf
  | Dbl.pinf, _ => Dbl.nan
  | Dbl.ninf, Dbl.fin _ => Dbl.ninf
  | Dbl.ninf, Dbl.ninf => Dbl.ninf
  | Dbl.ninf, _ => Dbl.nan

/-- The product `a * b` of doubles. -/
def Dbl.fmul : Dbl → Dbl → Dbl
  | a, Dbl.fin b => Dbl.mul a b
  | Dbl.fin a, b => Dbl.mul b a
  | Dbl.nan, _ => Dbl.nan
  | _, Dbl.nan => Dbl.nan
  | Dbl.pinf, Dbl.pinf => Dbl.pinf
  | Dbl.ninf, Dbl.ninf => Dbl.pinf
  | Dbl.pinf, Dbl.ninf => Dbl.ninf
  | Dbl.ninf, Dbl.pinf => Dbl.ninf

/-- The call `std::max(a, b)`, that is `(a < b) ? b : a`. -/
def Dbl.fmax (a b : Dbl) : Dbl := if Dbl.flt a b then b else a

/-- The call `std::min(a, b)`, that is `(b < a) ? b : a`. -/
def Dbl.fmin (a b : Dbl) : Dbl := if Dbl.flt b a then b else a

/-- The function `i_term_set` on doubles that may be infinite or NaN, statement by
statement as in the source; `i_term_set` is its restriction to finite arguments. -/
def Dbl.i_term_set (i_value error vel old_vel wind_up dt : Dbl) : Dbl :=
  let i1 :=
    if Dbl.flt error (Dbl.fin 0) && Dbl.flt (Dbl.fin 0) i_value then
      Dbl.fmax (Dbl.fin 0) (Dbl.fadd i_value (Dbl.fmul error dt))
    else i_value
  let i2 :=
    if Dbl.flt (Dbl.fin 0) error && Dbl.flt i1 (Dbl.fin 0) then
      Dbl.fmin (Dbl.fin 0) (Dbl.fadd i1 (Dbl.fmul error dt))
    else Dbl.fadd i1 (Dbl.fmul error dt)
  let i3 := if Dbl.flt wind_up i2 then wind_up else i2
  let i4 := if Dbl.flt i3 (Dbl.fneg wind_up) then Dbl.fneg wind_up else i3
  if Dbl.fne vel old_vel then Dbl.fin 0 else i4

/-- The integral term of one axis after a cycle of `pid_control`, on doubles that may be
infinite or NaN: the reference `command` is clamped (lines 110-111), the error is formed
with the local weight 1 (lines 124-126) and `i_term_set` is called with the windup limit
0.6 (lines 147-153). -/
def Dbl.cycle_i_term (i_term command vel old_command dt : Dbl) : Dbl :=
  let c := Dbl.fmin (Dbl.fin (6 / 10)) (Dbl.fmax (Dbl.fneg (Dbl.fin (6 / 10))) command)
  let error := Dbl.fadd (Dbl.fmul (Dbl.fin 1) c) (Dbl.fneg vel)
  Dbl.i_term_set i_term error c old_command (Dbl.fin (6 / 10)) dt

/-- Whether a double is a number within `±w`. -/
def Dbl.within (w : ℚ) : Dbl → Prop
  | Dbl.fin q => |q| ≤ w
  | _ => False

/-! ## Sequences of callbacks -/

/-- What `run()` (`ros::spinOnce`) can dispatch: one of the four subscribed callbacks. -/
inductive Event where
  | input (cmd_in : Twist)
  | odo (odo_msg : Twist) (now : ℚ)
  | ping (ping : ℚ)
  | reconfigure (config : Config)

/-- Whether the event runs a control cycle. -/
def Event.isCycle : Event → Bool
  | Event.odo _ _ => true
  | _ => false

/-- The state after one callback. -/
def step {F : Type} (flt : FilterVelocity F) (s : Controller F) : Event → Controller F
  | Event.input cmd_in => InputCallback s cmd_in
  | Event.odo odo_msg now => (OdoCallback flt s odo_msg now).1
  | Event.ping ping => PingCallback s ping
  | Event.reconfigure config => dynamic_reconfigure_callback s config

/-- The state after a sequence of callbacks, dispatched in order. -/
def run {F : Type} (flt : FilterVelocity F) (s : Controller F) : List Event → Controller F
  | [] => s
  | ev :: evs => run flt (step flt s ev) evs

/-- The state after `n` cycles that all receive the measurement `odo_msg`, each `dt`
after the one before; the reference is the one stored in `s`. -/
def cycles {F : Type} (flt : FilterVelocity F) (odo_msg : Twist) (dt : ℚ) :
    Nat → Controller F → Controller F
  | 0, s => s
  | n + 1, s => cycles flt odo_msg dt n (OdoCallback flt s odo_msg (s.oldTime + dt)).1

/-! ## Concrete data -/

/-- A filter without state that returns its sample. -/
def idFilter : FilterVelocity Unit := ⟨fun _ v => (v, ())⟩

/-- The all-zero twist. -/
def zeroTwist : Twist := ⟨⟨0, 0, 0⟩, ⟨0, 0, 0⟩⟩

/-- A twist with the given linear x and y and zero elsewhere. -/
def xyTwist (x y : ℚ) : Twist := ⟨⟨x, y, 0⟩, ⟨0, 0, 0⟩⟩

/-- Zeroed memory for the members, with the filter objects `fx` and `fy`, and the
file-scope variable `first_reconfig` at its initial value `true`. -/
def zeroMemory {F : Type} (fx fy : F) : Controller F :=
  { command := zeroTwist, odo := zeroTwist, vel_xy := ⟨0, 0⟩, error_xy := ⟨0, 0⟩
    command_vec := ⟨0, 0⟩, old_command_vec := ⟨0, 0⟩, old_ref := ⟨0, 0⟩
    old_vel_xy := ⟨0, 0⟩, i_term := ⟨0, 0⟩, gain_xy := ⟨0, 0, 0⟩, wind_up := ⟨0, 0⟩
    max_output := ⟨0, 0⟩, beta := 0, derv_filter := false, derv_median := false
    derv_smith := false, switch_ref := false, curTime := 0, oldTime := 0, navPing := 0
    control_output_old := zeroTwist, filterx := fx, filtery := fy, first_reconfig := true }

/-- A start-up configuration of the reconfigure server. -/
def startupConfig : Config :=
  { Kp := 2, Ki := 3, Kd := 4, windup := 5, beta := 6, limit_x := 7, limit_y := 8
    derv_filter := true, derv_median := true, derv_smith := false }

/-- The controller as constructed over zeroed memory: the start-up call of the
reconfigure callback has been made, so `first_reconfig` is `false`. -/
def initState : Controller Unit :=
  construct (zeroMemory () ()) startupConfig

/-- Two samples with the same time stamp, first cycle: the reference (0.3, 0) arrives,
then the measurement (0, 0) at time 0.1. -/
def sameStampFirst : Controller Unit × Cycle :=
  OdoCallback idFilter (InputCallback initState (xyTwist (3 / 10) 0)) (xyTwist 0 0) (1 / 10)

/-- Two samples with the same time stamp, second cycle: the measurement (0.1, 0) arrives,
again at time 0.1. -/
def sameStampSecond : Controller Unit × Cycle :=
  OdoCallback idFilter sameStampFirst.1 (xyTwist (1 / 10) 0) (1 / 10)

/-- A state in which the first reconfigure call has been made and whose stored reference
is (0.6, 0). -/
def tunedState : Controller Unit :=
  { initState with
    first_reconfig := false
    command := xyTwist (6 / 10) 0, old_command_vec := ⟨6 / 10, 0⟩ }

/-- A request for a proportional-only controller with small limits. -/
def smallLimits : Config :=
  { Kp := 1, Ki := 0, Kd := 0, windup := 1 / 100, beta := 1, limit_x := 1 / 10
    limit_y := 1 / 10, derv_filter := false, derv_median := false, derv_smith := true }

/-- A request with negative limits and non-positive gains. -/
def badConfig : Config :=
  { Kp := -1, Ki := 0, Kd := -2, windup := -1, beta := 1, limit_x := -1
    limit_y := -3, derv_filter := false, derv_median := false, derv_smith := true }

/-- Scenario 1: from the state as constructed, the reference (1.0, 0.0) arrives, then
the measurement (0.0, 0.0) with a time step of 0.1. -/
def scenario1 : Controller Unit × Cycle :=
  OdoCallback idFilter (InputCallback initState (xyTwist 1 0)) (xyTwist 0 0) (1 / 10)

/-- A state with unchanged zero reference and integral terms (0.1, −0.1). -/
def unwindState : Controller Unit := { initState with i_term := ⟨1 / 10, -(1 / 10)⟩ }

/-- The cycle from `unwindState` with measurement (1, −1), that is errors (−1, +1), and a
time step of 0.1. -/
def unwindCycle : Controller Unit × Cycle :=
  OdoCallback idFilter unwindState (xyTwist 1 (-1)) (1 / 10)

/-- The reference changes from 0 to 0.4 on x while the measurement is 0.35: a switch is
pending and the gate closes on x. -/
def gateClosed : Controller Unit × Cycle :=
  OdoCallback idFilter (InputCallback initState (xyTwist (4 / 10) 0)) (xyTwist (35 / 100) 0)
    (1 / 10)

/-- The cycle after `gateClosed`: the same reference, the measurement back at 0. -/
def afterGate : Controller Unit × Cycle :=
  OdoCallback idFilter gateClosed.1 (xyTwist 0 0) (2 / 10)

/-- A state with stored reference (0.3, 0), measurement 0 and stored filtered velocity 0. -/
def staleState : Controller Unit :=
  { initState with command := xyTwist (3 / 10) 0, old_command_vec := ⟨3 / 10, 0⟩ }

/-- A request that sets the set-point weight to 0.5 and keeps the constructor's other
values. -/
def halfWeight : Config :=
  { Kp := 45 / 100, Ki := 15 / 100, Kd := 5 / 100, windup := 6 / 10, beta := 5 / 10
    limit_x := 5 / 10, limit_y := 5 / 10, derv_filter := false, derv_median := false
    derv_smith := true }

/-- A state at rest on its reference: stored reference (0.3, 0), measurement and stored
filtered velocity (0.3, 0), zero integral terms, pre-switch reference 0. -/
def settledState : Controller Unit :=
  { initState with
    command := xyTwist (3 / 10) 0, old_command_vec := ⟨3 / 10, 0⟩
    vel_xy := ⟨3 / 10, 0⟩, old_vel_xy := ⟨3 / 10, 0⟩ }

/-- From the constructed state: the reference (0.3, 0.4) arrives and a cycle runs with
measurement (0, 0) at time 0.1. -/
def blendFirst : Controller Unit × Cycle :=
  OdoCallback idFilter (InputCallback initState (xyTwist (3 / 10) (4 / 10))) (xyTwist 0 0)
    (1 / 10)

/-- The state in which the next cycle runs: the measurement (0.1, 0.1) is stored. -/
def blendState : Controller Unit :=
  { blendFirst.1 with odo := xyTwist (1 / 10) (1 / 10), vel_xy := ⟨1 / 10, 1 / 10⟩ }

/-- From the constructed state: the raw reference (0.7, 0) arrives and a cycle runs with
measurement (0, 0) at time 0.1. -/
def rawFirst : Controller Unit × Cycle :=
  OdoCallback idFilter (InputCallback initState (xyTwist (7 / 10) 0)) (xyTwist 0 0) (1 / 10)

/-- After `rawFirst`: the raw reference (0.9, 0) arrives and a cycle runs with measurement
(0, 0) at time 0.2. -/
def rawSecond : Controller Unit × Cycle :=
  OdoCallback idFilter (InputCallback rawFirst.1 (xyTwist (9 / 10) 0)) (xyTwist 0 0) (2 / 10)

/-! ## Auxiliary facts -/

theorem abs_clamp_le (m v : ℚ) (hm : 0 ≤ m) : |clamp m v| ≤ m := by
  unfold clamp
  rw [abs_le]
  constructor
  · exact le_min (by linarith) (le_max_left _ _)
  · exact min_le_left _ _

theorem dbl_clamp_abs_le (m : ℚ) (d : Dbl) (hm : 0 ≤ m) : |Dbl.clamp m d| ≤ m := by
  have h : min m (-m) = -m := min_eq_right (by linarith)
  cases d with
  | fin q => exact PIPD.abs_clamp_le m q hm
  | pinf => simp [Dbl.clamp, abs_of_nonneg hm]
  | ninf => simp only [Dbl.clamp, h, abs_neg, abs_of_nonneg hm, le_refl]
  | nan => simp only [Dbl.clamp, h, abs_neg, abs_of_nonneg hm, le_refl]

theorem abs_i_term_set_le (i e v ov w dt : ℚ) (hw : 0 ≤ w) :
    |i_term_set i e v ov w dt| ≤ w := by
  unfold i_term_set
  simp only []
  split_ifs <;> rw [abs_le] <;> constructor <;> linarith

/-- After a cycle both integral terms are within the windup limit 0.6. -/
theorem i_term_bound_cycle {F : Type} (flt : FilterVelocity F) (s : Controller F)
    (now : ℚ) :
    |(pid_control flt s now).1.i_term.c0| ≤ 6 / 10 ∧
    |(pid_control flt s now).1.i_term.c1| ≤ 6 / 10 :=
  ⟨abs_i_term_set_le _ _ _ _ _ _ (by norm_num), abs_i_term_set_le _ _ _ _ _ _ (by norm_num)⟩

/-- A callback other than a cycle leaves the integral term as it is. -/
theorem step_i_term {F : Type} (flt : FilterVelocity F) (s : Controller F) (ev : Event)
    (h : ev.isCycle = false) : (step flt s ev).i_term = s.i_term := by
  cases ev with
  | input c => rfl
  | odo m t => simp [Event.isCycle] at h
  | ping p => rfl
  | reconfigure c =>
    simp only [step, dynamic_reconfigure_callback]
    split <;> rfl

/-- The windup bound, once it holds, holds after every further sequence of callbacks. -/
theorem run_i_term_bound {F : Type} (flt : FilterVelocity F) (evs : List Event) :
    ∀ s : Controller F, |s.i_term.c0| ≤ 6 / 10 ∧ |s.i_term.c1| ≤ 6 / 10 →
      |(run flt s evs).i_term.c0| ≤ 6 / 10 ∧ |(run flt s evs).i_term.c1| ≤ 6 / 10 := by
  induction evs with
  | nil => intro s h; exact h
  | cons ev evs ih =>
    intro s h
    apply ih
    cases hc : ev.isCycle with
    | false => rw [step_i_term flt s ev hc]; exact h
    | true =>
      cases ev with
      | odo m t => exact i_term_bound_cycle flt _ t
      | input c => simp [Event.isCycle] at hc
      | ping p => simp [Event.isCycle] at hc
      | reconfigure c => simp [Event.isCycle] at hc

theorem i_term_set_changed (i e v ov w dt : ℚ) (h : v ≠ ov) :
    i_term_set i e v ov w dt = 0 := by
  unfold i_term_set
  simp only []
  rw [if_pos h]

theorem i_term_set_from_zero (e v w dt : ℚ) (hw : 0 ≤ w) :
    i_term_set 0 e v v w dt = clamp w (e * dt) := by
  unfold i_term_set clamp
  simp only [gt_iff_lt, lt_irrefl, and_false, if_false, zero_add, ne_eq, not_true_eq_false]
  split_ifs with h1 h2 h2
  · linarith
  · rw [max_eq_right (by linarith), min_eq_left (le_of_lt h1)]
  · rw [max_eq_left (le_of_lt h2), min_eq_right (by linarith)]
  · rw [max_eq_right (not_lt.mp h2), min_eq_right (not_lt.mp h1)]

theorem clamp_idem (m v : ℚ) (hm : 0 ≤ m) : clamp m (clamp m v) = clamp m v := by
  unfold clamp
  rw [max_eq_right (le_min (by linarith) (le_max_left _ _)), min_eq_right (min_le_left _ _)]

/-- The clamped PID output when the derivative quotient is a division by zero. -/
theorem pid_zero_dt (q a : ℚ) :
    Dbl.clamp (5 / 10) (Dbl.add q (Dbl.mul (Dbl.div a 0) (35 / 100))) =
      if 0 < a then 5 / 10 else -(5 / 10) := by
  unfold Dbl.div
  by_cases h1 : 0 < a
  · norm_num [h1, Dbl.mul, Dbl.add, Dbl.clamp]
  · by_cases h2 : a < 0
    · norm_num [h1, h2, Dbl.mul, Dbl.add, Dbl.clamp]
    · norm_num [h1, h2, Dbl.mul, Dbl.add, Dbl.clamp]

theorem i_term_set_accumulate (i e v w dt : ℚ) (he : 0 < e) (hdt : 0 < dt) (hi : 0 ≤ i)
    (hw : 0 ≤ w) : i_term_set i e v v w dt = min w (i + e * dt) := by
  have hpos : 0 < e * dt := mul_pos he hdt
  unfold i_term_set
  simp only [gt_iff_lt, not_lt.mpr (le_of_lt he), false_and, if_false, not_lt.mpr hi,
    and_false, ne_eq, not_true_eq_false]
  split_ifs with h1 h2 h2
  · linarith
  · rw [min_eq_left (le_of_lt h1)]
  · linarith
  · rw [min_eq_right (not_lt.mp h1)]

/-- One cycle of Scenario 3 on a state whose reference is unchanged and whose integral
terms are not negative: the references stay unchanged and both integral terms are 0.6. -/
theorem scenario3_cycle {F : Type} (flt : FilterVelocity F) (s : Controller F)
    (odo_msg : Twist)
    (hrx : clamp (6 / 10) s.command.linear.x = s.old_command_vec.c0)
    (hry : clamp (6 / 10) s.command.linear.y = s.old_command_vec.c1)
    (hex : 1 * s.old_command_vec.c0 - odo_msg.linear.x = 10)
    (hey : 1 * s.old_command_vec.c1 - odo_msg.linear.y = 10)
    (hix : 0 ≤ s.i_term.c0) (hiy : 0 ≤ s.i_term.c1) :
    (clamp (6 / 10) (OdoCallback flt s odo_msg (s.oldTime + 1 / 10)).1.command.linear.x =
        (OdoCallback flt s odo_msg (s.oldTime + 1 / 10)).1.old_command_vec.c0 ∧
      clamp (6 / 10) (OdoCallback flt s odo_msg (s.oldTime + 1 / 10)).1.command.linear.y =
        (OdoCallback flt s odo_msg (s.oldTime + 1 / 10)).1.old_command_vec.c1 ∧
      (OdoCallback flt s odo_msg (s.oldTime + 1 / 10)).1.old_command_vec =
        s.old_command_vec) ∧
    (OdoCallback flt s odo_msg (s.oldTime + 1 / 10)).1.i_term.c0 = 6 / 10 ∧
    (OdoCallback flt s odo_msg (s.oldTime + 1 / 10)).1.i_term.c1 = 6 / 10 := by
  refine ⟨⟨clamp_idem _ _ (by norm_num), clamp_idem _ _ (by norm_num), ?_⟩, ?_, ?_⟩
  · show (⟨clamp (6 / 10) s.command.linear.x, clamp (6 / 10) s.command.linear.y⟩ : Vector2d)
      = s.old_command_vec
    rw [hrx, hry]
  · show i_term_set s.i_term.c0 (1 * clamp (6 / 10) s.command.linear.x - odo_msg.linear.x)
      (clamp (6 / 10) s.command.linear.x) s.old_command_vec.c0 (6 / 10)
      (s.oldTime + 1 / 10 - s.oldTime) = 6 / 10
    rw [hrx, hex, i_term_set_accumulate _ _ _ _ _ (by norm_num) (by norm_num) hix
      (by norm_num)]
    exact min_eq_left (by linarith)
  · show i_term_set s.i_term.c1 (1 * clamp (6 / 10) s.command.linear.y - odo_msg.linear.y)
      (clamp (6 / 10) s.command.linear.y) s.old_command_vec.c1 (6 / 10)
      (s.oldTime + 1 / 10 - s.oldTime) = 6 / 10
    rw [hry, hey, i_term_set_accumulate _ _ _ _ _ (by norm_num) (by norm_num) hiy
      (by norm_num)]
    exact min_eq_left (by linarith)

/-- Further cycles of Scenario 3 keep both integral terms at 0.6. -/
theorem scenario3_cycles {F : Type} (flt : FilterVelocity F) (odo_msg : Twist) (n : Nat) :
    ∀ s : Controller F,
      clamp (6 / 10) s.command.linear.x = s.old_command_vec.c0 →
      clamp (6 / 10) s.command.linear.y = s.old_command_vec.c1 →
      1 * s.old_command_vec.c0 - odo_msg.linear.x = 10 →
      1 * s.old_command_vec.c1 - odo_msg.linear.y = 10 →
      s.i_term.c0 = 6 / 10 → s.i_term.c1 = 6 / 10 →
      (cycles flt odo_msg (1 / 10) n s).i_term.c0 = 6 / 10 ∧
      (cycles flt odo_msg (1 / 10) n s).i_term.c1 = 6 / 10 := by
  induction n with
  | zero => intro s _ _ _ _ hix hiy; exact ⟨hix, hiy⟩
  | succ n ih =>
    intro s hrx hry hex hey hix hiy
    obtain ⟨⟨h1, h2, h3⟩, h4, h5⟩ := scenario3_cycle flt s odo_msg hrx hry hex hey
      (by rw [hix]; norm_num) (by rw [hiy]; norm_num)
    exact ih _ h1 h2 (by rw [h3]; exact hex) (by rw [h3]; exact hey) h4 h5

theorem clamp_pos (m v : ℚ) (hm : 0 < m) (hv : 0 < v) : 0 < clamp m v :=
  lt_min hm (lt_max_of_lt_right hv)

theorem clamp_zero (m : ℚ) (hm : 0 ≤ m) : clamp m 0 = 0 := by
  unfold clamp
  rw [max_eq_right (by linarith), min_eq_right hm]

theorem dbl_clamp_fin (m q : ℚ) : Dbl.clamp m (Dbl.fin q) = clamp m q := rfl

theorem dbl_div_fin (a b : ℚ) (hb : b ≠ 0) : Dbl.div a b = Dbl.fin (a / b) := by
  unfold Dbl.div
  rw [if_pos hb]

/-- An integral below zero with a positive error: `i_term_set` moves it toward zero and
stops at zero. -/
theorem i_term_set_unwind_up (i e v w dt : ℚ) (he : 0 < e) (hi : i < 0) (hdt : 0 < dt)
    (hw : -w ≤ i) : i_term_set i e v v w dt = min 0 (i + e * dt) := by
  have hpos : 0 < e * dt := mul_pos he hdt
  unfold i_term_set
  simp only [gt_iff_lt, not_lt.mpr (le_of_lt he), false_and, if_false, he, hi, and_self,
    if_true, ne_eq, not_true_eq_false]
  have h1 : min 0 (i + e * dt) ≤ 0 := min_le_left _ _
  have h2 : i ≤ min 0 (i + e * dt) := le_min (le_of_lt hi) (by linarith)
  split_ifs with h3 h4 h4
  · linarith
  · linarith
  · linarith
  · rfl

/-- An integral above zero with a negative error: `i_term_set` adds `error * dt` a second
time after the step toward zero. -/
theorem i_term_set_unwind_down (i e v w dt : ℚ) (he : e < 0) (hi : 0 < i) (hdt : 0 < dt)
    (hw : i ≤ w) : i_term_set i e v v w dt = max (-w) (max 0 (i + e * dt) + e * dt) := by
  have hneg : e * dt < 0 := mul_neg_of_neg_of_pos he hdt
  unfold i_term_set
  simp only [gt_iff_lt, he, hi, and_self, if_true, not_lt.mpr (le_of_lt he), false_and,
    if_false, ne_eq, not_true_eq_false]
  have h1 : max 0 (i + e * dt) ≤ i := max_le (le_of_lt hi) (by linarith)
  split_ifs with h3 h4 h4
  · linarith
  · linarith
  · rw [max_eq_left (le_of_lt h4)]
  · rw [max_eq_right (not_lt.mp h4)]

/-- A cycle never clears the switch flag. -/
theorem switch_ref_never_cleared {F : Type} (flt : FilterVelocity F) (s : Controller F)
    (now : ℚ) (h : s.switch_ref = true) : (pid_control flt s now).1.switch_ref = true := by
  show (if decide (clamp (6 / 10) s.command.linear.y ≠ s.old_command_vec.c1) = true then true
    else if decide (clamp (6 / 10) s.command.linear.x ≠ s.old_command_vec.c0) = true then true
    else s.switch_ref) = true
  rw [h]
  simp

/-- The x feedforward of a cycle run by `OdoCallback`, in terms of the state before. -/
theorem odo_feedforward_x {F : Type} (flt : FilterVelocity F) (s : Controller F)
    (odo_msg : Twist) (now : ℚ) :
    (OdoCallback flt s odo_msg now).2.control_output_feedforward.c0 =
      gate (staticGain * clamp (6 / 10) s.command.linear.x)
        (clamp (6 / 10) s.command.linear.x) odo_msg.linear.x
        (if decide (clamp (6 / 10) s.command.linear.x ≠ s.old_command_vec.c0) = true
          then s.old_command_vec.c0 else s.old_ref.c0)
        (if decide (clamp (6 / 10) s.command.linear.y ≠ s.old_command_vec.c1) = true
          then true
          else if decide (clamp (6 / 10) s.command.linear.x ≠ s.old_command_vec.c0) = true
            then true else s.switch_ref) := rfl

/-- The error of a cycle is computed with the local weight 1, whatever the stored
set-point weight. -/
theorem error_uses_local_weight {F : Type} (flt : FilterVelocity F) (s : Controller F)
    (now : ℚ) :
    (pid_control flt s now).2.p_term =
      ⟨1 * clamp (6 / 10) s.command.linear.x - s.vel_xy.c0,
       1 * clamp (6 / 10) s.command.linear.y - s.vel_xy.c1⟩ ∧
    (pid_control flt s now).1.error_xy = (pid_control flt s now).2.p_term ∧
    (pid_control flt s now).1.beta = s.beta :=
  ⟨rfl, rfl, rfl⟩

theorem dbl_clamp_steps (w : ℚ) (hw : 0 ≤ w) (i2 : Dbl) :
    (if Dbl.flt (if Dbl.flt (Dbl.fin w) i2 then Dbl.fin w else i2) (Dbl.fneg (Dbl.fin w))
      then Dbl.fneg (Dbl.fin w) else (if Dbl.flt (Dbl.fin w) i2 then Dbl.fin w else i2)) =
      Dbl.nan ∨
    Dbl.within w (if Dbl.flt (if Dbl.flt (Dbl.fin w) i2 then Dbl.fin w else i2)
        (Dbl.fneg (Dbl.fin w))
      then Dbl.fneg (Dbl.fin w) else (if Dbl.flt (Dbl.fin w) i2 then Dbl.fin w else i2)) := by
  cases i2 with
  | nan => left; simp [Dbl.flt]
  | pinf =>
    right
    simp only [Dbl.flt, Dbl.fneg, if_true, decide_eq_true_eq]
    rw [if_neg (by linarith)]
    simp [Dbl.within, abs_of_nonneg hw]
  | ninf =>
    right
    simp [Dbl.flt, Dbl.fneg, Dbl.within, abs_of_nonneg hw]
  | fin q =>
    right
    simp only [Dbl.flt, Dbl.fneg, decide_eq_true_eq]
    split_ifs <;> simp only [Dbl.within, abs_le] <;> constructor <;>
      simp only [Dbl.flt, decide_eq_true_eq] at * <;> linarith

/-- For every windup limit `w ≥ 0`, `i_term_set` on doubles leaves NaN or a number
within `±w`. -/
theorem dbl_i_term_set_nan_or_within (i e v ov dt : Dbl) (w : ℚ) (hw : 0 ≤ w) :
    Dbl.i_term_set i e v ov (Dbl.fin w) dt = Dbl.nan ∨
      Dbl.within w (Dbl.i_term_set i e v ov (Dbl.fin w) dt) := by
  unfold Dbl.i_term_set
  simp only []
  split
  · right; simp [Dbl.within, hw]
  · exact dbl_clamp_steps w hw _

theorem dbl_fin_ite (c : Prop) [Decidable c] (a b : ℚ) :
    (if c then Dbl.fin a else Dbl.fin b) = Dbl.fin (if c then a else b) := by
  split_ifs <;> rfl

theorem dbl_fmax_fin (a b : ℚ) : Dbl.fmax (Dbl.fin a) (Dbl.fin b) = Dbl.fin (max a b) := by
  unfold Dbl.fmax
  simp only [Dbl.flt, decide_eq_true_eq]
  split_ifs with h
  · rw [max_eq_right (le_of_lt h)]
  · rw [max_eq_left (not_lt.mp h)]

theorem dbl_fmin_fin (a b : ℚ) : Dbl.fmin (Dbl.fin a) (Dbl.fin b) = Dbl.fin (min a b) := by
  unfold Dbl.fmin
  simp only [Dbl.flt, decide_eq_true_eq]
  split_ifs with h
  · rw [min_eq_right (le_of_lt h)]
  · rw [min_eq_left (not_lt.mp h)]

theorem dbl_fadd_fin (a b : ℚ) : Dbl.fadd (Dbl.fin a) (Dbl.fin b) = Dbl.fin (a + b) := rfl

theorem dbl_fmul_fin (a b : ℚ) : Dbl.fmul (Dbl.fin a) (Dbl.fin b) = Dbl.fin (a * b) := rfl

theorem dbl_fneg_fin (a : ℚ) : Dbl.fneg (Dbl.fin a) = Dbl.fin (-a) := rfl

theorem dbl_flt_fin (a b : ℚ) : Dbl.flt (Dbl.fin a) (Dbl.fin b) = decide (a < b) := rfl

theorem dbl_fne_fin (a b : ℚ) : Dbl.fne (Dbl.fin a) (Dbl.fin b) = decide (a ≠ b) := rfl

theorem constructed_old_command_vec {F : Type} (fx fy : F) (startup : Config) :
    (construct (zeroMemory fx fy) startup).old_command_vec = ⟨0, 0⟩ := rfl

/-- A NaN integral stays NaN in `i_term_set` unless the reference changed. -/
theorem dbl_i_term_set_nan (e v ov w dt : Dbl) :
    Dbl.i_term_set Dbl.nan e v ov w dt = if Dbl.fne v ov then Dbl.fin 0 else Dbl.nan := by
  unfold Dbl.i_term_set
  cases e <;> cases dt <;> cases w <;>
    simp [Dbl.flt, Dbl.fadd, Dbl.fmul, Dbl.fneg, Dbl.mul, Dbl.add]

/-- A callback leaves `first_reconfig` cleared once it is cleared. -/
theorem step_first_reconfig {F : Type} (flt : FilterVelocity F) (s : Controller F)
    (ev : Event) (h : s.first_reconfig = false) : (step flt s ev).first_reconfig = false := by
  cases ev with
  | input c => exact h
  | odo m t => exact h
  | ping p => exact h
  | reconfigure c =>
    simp only [step, dynamic_reconfigure_callback]
    rw [h]
    rfl

theorem run_first_reconfig {F : Type} (flt : FilterVelocity F) (evs : List Event) :
    ∀ s : Controller F, s.first_reconfig = false → (run flt s evs).first_reconfig = false := by
  induction evs with
  | nil => intro s h; exact h
  | cons ev evs ih => intro s h; exact ih _ (step_first_reconfig flt s ev h)

/-! ## Claims -/

/-- C1: the command published by one cycle of `pid_control` has magnitude at most the
output limit 0.5 on each axis, for every state (reference and measurement included),
every filter and every time step. -/
theorem saturation_invariant {F : Type} (flt : FilterVelocity F) (s : Controller F)
    (now : ℚ) :
    |(pid_control flt s now).2.control_output.linear.x| ≤ 5 / 10 ∧
    |(pid_control flt s now).2.control_output.linear.y| ≤ 5 / 10 := by
  constructor
  · exact abs_clamp_le _ _ (by norm_num)
  · exact abs_clamp_le _ _ (by norm_num)

/-- C2, as stated, fails: with the error NaN (previous integral 0, windup limit 0.6, time
step 0.1, reference unchanged) `i_term_set` leaves NaN, which is not within ±0.6.  In a
cycle this is a NaN measurement: with reference 0 and integral 0 the cycle leaves the
integral NaN, the next cycle with measurement 0 leaves it NaN again, and it becomes 0
when the reference changes to 0.3. -/
theorem anti_windup_nan_counterexample :
    Dbl.i_term_set (Dbl.fin 0) Dbl.nan (Dbl.fin 0) (Dbl.fin 0) (Dbl.fin (6 / 10))
      (Dbl.fin (1 / 10)) = Dbl.nan ∧
    ¬ Dbl.within (6 / 10) (Dbl.i_term_set (Dbl.fin 0) Dbl.nan (Dbl.fin 0) (Dbl.fin 0)
      (Dbl.fin (6 / 10)) (Dbl.fin (1 / 10))) ∧
    Dbl.cycle_i_term (Dbl.fin 0) (Dbl.fin 0) Dbl.nan (Dbl.fin 0) (Dbl.fin (1 / 10)) =
      Dbl.nan ∧
    Dbl.cycle_i_term Dbl.nan (Dbl.fin 0) (Dbl.fin 0) (Dbl.fin 0) (Dbl.fin (1 / 10)) =
      Dbl.nan ∧
    Dbl.cycle_i_term Dbl.nan (Dbl.fin (3 / 10)) (Dbl.fin 0) (Dbl.fin 0) (Dbl.fin (1 / 10)) =
      Dbl.fin 0 := by
  have h : Dbl.i_term_set (Dbl.fin 0) Dbl.nan (Dbl.fin 0) (Dbl.fin 0) (Dbl.fin (6 / 10))
      (Dbl.fin (1 / 10)) = Dbl.nan := by
    simp [Dbl.i_term_set, Dbl.flt, Dbl.fne, Dbl.fadd, Dbl.fmul, Dbl.fneg, Dbl.mul, Dbl.add]
  refine ⟨h, by rw [h]; exact fun hf => hf, ?_, ?_, ?_⟩
  · norm_num [Dbl.cycle_i_term, Dbl.i_term_set, Dbl.flt, Dbl.fne, Dbl.fadd, Dbl.fmul,
      Dbl.fneg, Dbl.fmax, Dbl.fmin, Dbl.mul, Dbl.add]
  · norm_num [Dbl.cycle_i_term, dbl_i_term_set_nan, Dbl.flt, Dbl.fne, Dbl.fneg, Dbl.fmax,
      Dbl.fmin]
  · norm_num [Dbl.cycle_i_term, dbl_i_term_set_nan, Dbl.flt, Dbl.fne, Dbl.fneg, Dbl.fmax,
      Dbl.fmin]

/-- C2, amended: for every windup limit `w ≥ 0` and all double arguments, NaN and the
infinities included, `i_term_set` leaves NaN or a number of magnitude at most `w`; a NaN
integral stays NaN until the reference changes; on finite arguments it leaves a number of
magnitude at most `w`.  Hence with finite references, measurements and times, after every
sequence of callbacks in which at least one cycle has run, both integral terms have
magnitude at most 0.6, whatever the integral terms of the state the sequence starts in. -/
theorem anti_windup_on_numbers {F : Type} (flt : FilterVelocity F) (di de dv dov ddt : Dbl)
    (i e v ov w dt now : ℚ) (hw : 0 ≤ w) (s : Controller F) (evs : List Event)
    (hc : ∃ ev ∈ evs, ev.isCycle = true) :
    (Dbl.i_term_set di de dv dov (Dbl.fin w) ddt = Dbl.nan ∨
      Dbl.within w (Dbl.i_term_set di de dv dov (Dbl.fin w) ddt)) ∧
    Dbl.i_term_set Dbl.nan de dv dov (Dbl.fin w) ddt =
      (if Dbl.fne dv dov then Dbl.fin 0 else Dbl.nan) ∧
    Dbl.i_term_set (Dbl.fin i) (Dbl.fin e) (Dbl.fin v) (Dbl.fin ov) (Dbl.fin w) (Dbl.fin dt) =
      Dbl.fin (i_term_set i e v ov w dt) ∧
    |i_term_set i e v ov w dt| ≤ w ∧
    Dbl.cycle_i_term (Dbl.fin s.i_term.c0) (Dbl.fin s.command.linear.x) (Dbl.fin s.vel_xy.c0)
        (Dbl.fin s.old_command_vec.c0) (Dbl.fin (now - s.oldTime)) =
      Dbl.fin (pid_control flt s now).1.i_term.c0 ∧
    Dbl.cycle_i_term (Dbl.fin s.i_term.c1) (Dbl.fin s.command.linear.y) (Dbl.fin s.vel_xy.c1)
        (Dbl.fin s.old_command_vec.c1) (Dbl.fin (now - s.oldTime)) =
      Dbl.fin (pid_control flt s now).1.i_term.c1 ∧
    |(run flt s evs).i_term.c0| ≤ 6 / 10 ∧ |(run flt s evs).i_term.c1| ≤ 6 / 10 := by
  have hfin : ∀ a b c d x y : ℚ,
      Dbl.i_term_set (Dbl.fin a) (Dbl.fin b) (Dbl.fin c) (Dbl.fin d) (Dbl.fin x) (Dbl.fin y) =
        Dbl.fin (i_term_set a b c d x y) := by
    intro a b c d x y
    unfold Dbl.i_term_set i_term_set
    simp only [dbl_fmul_fin, dbl_fadd_fin, dbl_fmax_fin, dbl_fmin_fin, dbl_fneg_fin,
      dbl_flt_fin, dbl_fne_fin, dbl_fin_ite, Bool.and_eq_true, decide_eq_true_eq, gt_iff_lt]
  have hbound : |i_term_set i e v ov w dt| ≤ w := by
    unfold i_term_set
    simp only []
    split_ifs <;> rw [abs_le] <;> constructor <;> linarith
  have hnan : Dbl.i_term_set Dbl.nan de dv dov (Dbl.fin w) ddt =
      (if Dbl.fne dv dov then Dbl.fin 0 else Dbl.nan) := by
    unfold Dbl.i_term_set
    cases de <;> cases ddt <;>
      simp [Dbl.flt, Dbl.fadd, Dbl.fmul, Dbl.fneg, Dbl.mul, Dbl.add]
  have hcyc : ∀ qi qc qv qo qd : ℚ,
      Dbl.cycle_i_term (Dbl.fin qi) (Dbl.fin qc) (Dbl.fin qv) (Dbl.fin qo) (Dbl.fin qd) =
        Dbl.fin (i_term_set qi (1 * clamp (6 / 10) qc - qv) (clamp (6 / 10) qc) qo (6 / 10)
          qd) := by
    intro qi qc qv qo qd
    unfold Dbl.cycle_i_term
    simp only [dbl_fneg_fin, dbl_fmax_fin, dbl_fmin_fin, dbl_fmul_fin, dbl_fadd_fin, hfin,
      clamp, sub_eq_add_neg]
  refine ⟨dbl_i_term_set_nan_or_within di de dv dov ddt w hw, hnan, hfin i e v ov w dt,
    hbound, hcyc _ _ _ _ _, hcyc _ _ _ _ _, ?_⟩
  induction evs generalizing s with
  | nil => obtain ⟨ev, hev, _⟩ := hc; simp at hev
  | cons ev evs ih =>
    cases hev : ev.isCycle with
    | true =>
      cases ev with
      | odo m t => exact run_i_term_bound flt evs _ (i_term_bound_cycle flt _ t)
      | input c => simp [Event.isCycle] at hev
      | ping p => simp [Event.isCycle] at hev
      | reconfigure c => simp [Event.isCycle] at hev
    | false =>
      apply ih
      obtain ⟨ev2, hmem, hcy⟩ := hc
      rcases List.mem_cons.mp hmem with h | h
      · rw [h, hev] at hcy; simp at hcy
      · exact ⟨ev2, h, hcy⟩

/-- The windup bound on finite arguments, and after a run whose state starts with
integral terms far outside the limit. -/
theorem anti_windup_on_numbers_witness :
    Dbl.i_term_set (Dbl.fin 5) (Dbl.fin 10) (Dbl.fin 0) (Dbl.fin 0) (Dbl.fin (6 / 10))
      (Dbl.fin (1 / 10)) = Dbl.fin (i_term_set 5 10 0 0 (6 / 10) (1 / 10)) ∧
    |i_term_set 5 10 0 0 (6 / 10) (1 / 10)| ≤ 6 / 10 ∧
    |(run idFilter { initState with i_term := ⟨5, -7⟩ }
        [Event.input (xyTwist 1 0), Event.odo (xyTwist 0 0) (1 / 10)]).i_term.c0| ≤ 6 / 10 ∧
    |(run idFilter { initState with i_term := ⟨5, -7⟩ }
        [Event.input (xyTwist 1 0), Event.odo (xyTwist 0 0) (1 / 10)]).i_term.c1| ≤ 6 / 10 :=
  have h := anti_windup_on_numbers idFilter Dbl.nan Dbl.nan Dbl.nan Dbl.nan Dbl.nan 5 10 0 0
    (6 / 10) (1 / 10) 0 (by norm_num) { initState with i_term := ⟨5, -7⟩ }
    [Event.input (xyTwist 1 0), Event.odo (xyTwist 0 0) (1 / 10)]
    ⟨Event.odo (xyTwist 0 0) (1 / 10), by simp, rfl⟩
  ⟨h.2.2.1, h.2.2.2.1, h.2.2.2.2.2.2⟩

/-- C3: on each axis, a cycle whose clamped reference differs from the reference stored
by the previous cycle leaves that axis's integral term at exactly zero, whatever the
error, the time step and the previous integral; in the following cycle with the same
clamped reference the integral is the accumulation `error * dt` clamped to ±0.6. -/
theorem integral_reset_on_reference_change {F : Type} (flt : FilterVelocity F)
    (s : Controller F) (now : ℚ) (cmd2 odo2 : Twist) (now2 : ℚ) :
    (clamp (6 / 10) s.command.linear.x ≠ s.old_command_vec.c0 →
      (pid_control flt s now).1.i_term.c0 = 0 ∧
      (clamp (6 / 10) cmd2.linear.x = clamp (6 / 10) s.command.linear.x →
        (OdoCallback flt (InputCallback (pid_control flt s now).1 cmd2) odo2 now2).1.i_term.c0 =
          clamp (6 / 10)
            ((1 * clamp (6 / 10) s.command.linear.x - odo2.linear.x) * (now2 - now)))) ∧
    (clamp (6 / 10) s.command.linear.y ≠ s.old_command_vec.c1 →
      (pid_control flt s now).1.i_term.c1 = 0 ∧
      (clamp (6 / 10) cmd2.linear.y = clamp (6 / 10) s.command.linear.y →
        (OdoCallback flt (InputCallback (pid_control flt s now).1 cmd2) odo2 now2).1.i_term.c1 =
          clamp (6 / 10)
            ((1 * clamp (6 / 10) s.command.linear.y - odo2.linear.y) * (now2 - now)))) := by
  constructor
  · intro h
    have h0 : (pid_control flt s now).1.i_term.c0 = 0 := i_term_set_changed _ _ _ _ _ _ h
    refine ⟨h0, fun h2 => ?_⟩
    show i_term_set (pid_control flt s now).1.i_term.c0
      (1 * clamp (6 / 10) cmd2.linear.x - odo2.linear.x) (clamp (6 / 10) cmd2.linear.x)
      (clamp (6 / 10) s.command.linear.x) (6 / 10) (now2 - now) = _
    rw [h0, h2]
    exact i_term_set_from_zero _ _ (6 / 10) _ (by norm_num)
  · intro h
    have h0 : (pid_control flt s now).1.i_term.c1 = 0 := i_term_set_changed _ _ _ _ _ _ h
    refine ⟨h0, fun h2 => ?_⟩
    show i_term_set (pid_control flt s now).1.i_term.c1
      (1 * clamp (6 / 10) cmd2.linear.y - odo2.linear.y) (clamp (6 / 10) cmd2.linear.y)
      (clamp (6 / 10) s.command.linear.y) (6 / 10) (now2 - now) = _
    rw [h0, h2]
    exact i_term_set_from_zero _ _ (6 / 10) _ (by norm_num)

/-- The reset at a reference change from 0 to 0.3 on x, with a previous integral of 0.5,
and the integral of the next cycle (error 0.2, time step 0.1). -/
theorem integral_reset_on_reference_change_witness :
    (pid_control idFilter
      { initState with command := xyTwist (3 / 10) 0, i_term := ⟨5 / 10, 0⟩ }
      (1 / 10)).1.i_term.c0 = 0 ∧
    (OdoCallback idFilter (InputCallback (pid_control idFilter
      { initState with command := xyTwist (3 / 10) 0, i_term := ⟨5 / 10, 0⟩ }
      (1 / 10)).1 (xyTwist (3 / 10) 0)) (xyTwist (1 / 10) 0) (2 / 10)).1.i_term.c0 =
      clamp (6 / 10) ((1 * clamp (6 / 10) (3 / 10) - 1 / 10) * (2 / 10 - 1 / 10)) :=
  have h := (integral_reset_on_reference_change idFilter
    { initState with command := xyTwist (3 / 10) 0, i_term := ⟨5 / 10, 0⟩ }
    (1 / 10) (xyTwist (3 / 10) 0) (xyTwist (1 / 10) 0) (2 / 10)).1
    (by norm_num [clamp, initState, construct, dynamic_reconfigure_callback, zeroMemory, xyTwist])
  ⟨h.1, h.2 rfl⟩

/-- C4, as stated, fails: two consecutive samples carry the same time stamp 0.1, so the
second cycle has `dt = 0`.  It divides by that `dt` (the x derivative quotient is
non-finite), it is not skipped (it stores the new filtered measurement), and it publishes
a command different from the one of the first cycle. -/
theorem dt_guard_counterexample :
    sameStampSecond.2.dt = 0 ∧
    sameStampSecond.2.d_term_x = Dbl.ninf ∧
    sameStampFirst.1.old_vel_xy = ⟨0, 0⟩ ∧
    sameStampSecond.1.old_vel_xy = ⟨1 / 10, 0⟩ ∧
    sameStampFirst.2.control_output.linear.x = 554551 / 3422600 ∧
    sameStampSecond.2.control_output.linear.x = -(8094 / 17113) ∧
    sameStampSecond.2.control_output ≠ sameStampFirst.2.control_output := by
  have h1 : sameStampFirst.2.control_output.linear.x = 554551 / 3422600 := by
    norm_num [sameStampFirst, OdoCallback, InputCallback, pid_control, initState, construct, dynamic_reconfigure_callback, zeroMemory,
      xyTwist, zeroTwist, idFilter, i_term_set, clamp, gate, staticGain, Dbl.div, Dbl.mul,
      Dbl.add, Dbl.absLt, Dbl.clamp]
  have h2 : sameStampSecond.2.control_output.linear.x = -(8094 / 17113) := by
    norm_num [sameStampSecond, sameStampFirst, OdoCallback, InputCallback, pid_control,
      initState, construct, dynamic_reconfigure_callback, zeroMemory, xyTwist, zeroTwist, idFilter, i_term_set, clamp, gate,
      staticGain, Dbl.div, Dbl.mul, Dbl.add, Dbl.absLt, Dbl.clamp, abs_lt]
  refine ⟨?_, ?_, ?_, ?_, h1, h2, ?_⟩
  · norm_num [sameStampSecond, sameStampFirst, OdoCallback, InputCallback, pid_control,
      initState, construct, dynamic_reconfigure_callback, zeroMemory]
  · norm_num [sameStampSecond, sameStampFirst, OdoCallback, InputCallback, pid_control,
      initState, construct, dynamic_reconfigure_callback, zeroMemory, xyTwist, zeroTwist, idFilter, Dbl.div]
  · norm_num [sameStampFirst, OdoCallback, InputCallback, pid_control, xyTwist, idFilter]
  · norm_num [sameStampSecond, OdoCallback, InputCallback, pid_control, xyTwist, idFilter]
  · intro h
    rw [h, h1] at h2
    norm_num at h2

/-- C4, amended: a cycle with a non-positive time step is run like any other cycle; it is
not skipped and reports nothing.  It stores the time, the clamped reference and the
filtered measurement, updates the integral terms by `i_term_set` with that time step, and
publishes a command of magnitude at most 0.5 on each axis.  With `dt = 0` the derivative
quotient is a division by zero, and the clamped PID output of an axis is +0.5 when the
filtered measurement is below the stored one and −0.5 otherwise. -/
theorem no_dt_guard {F : Type} (flt : FilterVelocity F) (s : Controller F) (now : ℚ)
    (_hdt : now - s.oldTime ≤ 0) :
    (pid_control flt s now).2.dt = now - s.oldTime ∧
    (pid_control flt s now).1.oldTime = now ∧
    (pid_control flt s now).1.old_command_vec =
      ⟨clamp (6 / 10) s.command.linear.x, clamp (6 / 10) s.command.linear.y⟩ ∧
    (pid_control flt s now).1.old_vel_xy =
      ⟨(flt.lowpass_filter s.filterx s.vel_xy.c0).1,
       (flt.lowpass_filter s.filtery s.vel_xy.c1).1⟩ ∧
    (pid_control flt s now).1.i_term =
      ⟨i_term_set s.i_term.c0 (1 * clamp (6 / 10) s.command.linear.x - s.vel_xy.c0)
         (clamp (6 / 10) s.command.linear.x) s.old_command_vec.c0 (6 / 10) (now - s.oldTime),
       i_term_set s.i_term.c1 (1 * clamp (6 / 10) s.command.linear.y - s.vel_xy.c1)
         (clamp (6 / 10) s.command.linear.y) s.old_command_vec.c1 (6 / 10) (now - s.oldTime)⟩ ∧
    |(pid_control flt s now).2.control_output.linear.x| ≤ 5 / 10 ∧
    |(pid_control flt s now).2.control_output.linear.y| ≤ 5 / 10 ∧
    (now - s.oldTime = 0 →
      (pid_control flt s now).2.d_term_x =
        Dbl.div (-((flt.lowpass_filter s.filterx s.vel_xy.c0).1 - s.old_vel_xy.c0)) 0 ∧
      (pid_control flt s now).2.d_term_y =
        Dbl.div (-((flt.lowpass_filter s.filtery s.vel_xy.c1).1 - s.old_vel_xy.c1)) 0 ∧
      (pid_control flt s now).2.control_output_pid.linear.x =
        (if (flt.lowpass_filter s.filterx s.vel_xy.c0).1 < s.old_vel_xy.c0 then 5 / 10
         else -(5 / 10)) ∧
      (pid_control flt s now).2.control_output_pid.linear.y =
        (if (flt.lowpass_filter s.filtery s.vel_xy.c1).1 < s.old_vel_xy.c1 then 5 / 10
         else -(5 / 10))) := by
  refine ⟨rfl, rfl, rfl, rfl, rfl, abs_clamp_le _ _ (by norm_num),
    abs_clamp_le _ _ (by norm_num), fun h0 => ?_⟩
  have hx : (pid_control flt s now).2.d_term_x =
      Dbl.div (-((flt.lowpass_filter s.filterx s.vel_xy.c0).1 - s.old_vel_xy.c0)) 0 := by
    rw [← h0]; rfl
  have hy : (pid_control flt s now).2.d_term_y =
      Dbl.div (-((flt.lowpass_filter s.filtery s.vel_xy.c1).1 - s.old_vel_xy.c1)) 0 := by
    rw [← h0]; rfl
  refine ⟨hx, hy, ?_, ?_⟩
  · show Dbl.clamp (5 / 10) (Dbl.add _ (Dbl.mul (pid_control flt s now).2.d_term_x (35 / 100)))
      = _
    rw [hx, pid_zero_dt]
    simp only [neg_pos, sub_neg]
  · show Dbl.clamp (5 / 10) (Dbl.add _ (Dbl.mul (pid_control flt s now).2.d_term_y (35 / 100)))
      = _
    rw [hy, pid_zero_dt]
    simp only [neg_pos, sub_neg]

/-- The second of two cycles with the same time stamp: it runs with `dt = 0`, and its
filtered x measurement 0.1 is above the stored 0, so its clamped PID output is −0.5. -/
theorem no_dt_guard_witness :
    (pid_control idFilter { sameStampFirst.1 with vel_xy := ⟨1 / 10, 0⟩ } (1 / 10)).2.dt = 0 ∧
    (pid_control idFilter { sameStampFirst.1 with vel_xy := ⟨1 / 10, 0⟩ }
      (1 / 10)).2.control_output_pid.linear.x = -(5 / 10) := by
  have h := no_dt_guard idFilter { sameStampFirst.1 with vel_xy := ⟨1 / 10, 0⟩ } (1 / 10)
    (by norm_num [sameStampFirst, OdoCallback, pid_control])
  have h0 : (1 / 10 : ℚ) - ({ sameStampFirst.1 with vel_xy := ⟨1 / 10, 0⟩ } :
      Controller Unit).oldTime = 0 := by
    norm_num [sameStampFirst, OdoCallback, pid_control]
  refine ⟨h.1.trans h0, (h.2.2.2.2.2.2.2 h0).2.2.1.trans ?_⟩
  norm_num [sameStampFirst, OdoCallback, pid_control, idFilter, xyTwist]

/-- C6, the code at a failing input: the request `smallLimits` (Kp = 1, Ki = Kd = 0,
windup limit 0.01, output limits 0.1) is applied and stored, and the next cycle
(reference 0.6 unchanged, measurement 0, time step 0.1) still computes with the gains
0.45, 0.15, 0.35, the windup limit 0.6 and the output limit 0.5: the PID output is 0.279
and not clamp(1 * 0.6, ±0.1) = 0.1, the integral term is 0.06 > 0.01 and the command is
0.279 > 0.1; the cycle also overwrites the stored gains. -/
theorem reconfigure_without_effect :
    (dynamic_reconfigure_callback tunedState smallLimits).gain_xy = ⟨1, 0, 0⟩ ∧
    (dynamic_reconfigure_callback tunedState smallLimits).wind_up = ⟨1 / 100, 1 / 100⟩ ∧
    (dynamic_reconfigure_callback tunedState smallLimits).max_output = ⟨1 / 10, 1 / 10⟩ ∧
    (OdoCallback idFilter (dynamic_reconfigure_callback tunedState smallLimits)
      (xyTwist 0 0) (1 / 10)).2.control_output_pid.linear.x = 279 / 1000 ∧
    (OdoCallback idFilter (dynamic_reconfigure_callback tunedState smallLimits)
      (xyTwist 0 0) (1 / 10)).1.i_term.c0 = 6 / 100 ∧
    (OdoCallback idFilter (dynamic_reconfigure_callback tunedState smallLimits)
      (xyTwist 0 0) (1 / 10)).2.control_output.linear.x = 279 / 1000 ∧
    (OdoCallback idFilter (dynamic_reconfigure_callback tunedState smallLimits)
      (xyTwist 0 0) (1 / 10)).1.gain_xy = ⟨45 / 100, 15 / 100, 35 / 100⟩ := by
  refine ⟨?_, ?_, ?_, ?_, ?_, ?_, ?_⟩ <;>
  norm_num [dynamic_reconfigure_callback, tunedState, smallLimits, OdoCallback, pid_control,
    initState, construct, dynamic_reconfigure_callback, zeroMemory, xyTwist, zeroTwist, idFilter, i_term_set, clamp, gate, staticGain,
    Dbl.div, Dbl.mul, Dbl.add, Dbl.absLt, Dbl.clamp, abs_lt]

/-- A reconfiguration changes nothing of what the next cycle computes and publishes. -/
theorem cycle_ignores_reconfigure {F : Type} (flt : FilterVelocity F) (s : Controller F)
    (config : Config) (now : ℚ) :
    (pid_control flt (dynamic_reconfigure_callback s config) now).2 =
      (pid_control flt s now).2 := by
  unfold dynamic_reconfigure_callback
  split <;> rfl

/-- C7: for every state and every request, `dynamic_reconfigure_callback` leaves the
integral term, the stored filtered velocity, the filter objects, the stored references,
the switch flag and every other member that is not a tunable parameter unchanged. -/
theorem reconfigure_frame {F : Type} (s : Controller F) (config : Config) :
    (dynamic_reconfigure_callback s config).i_term = s.i_term ∧
    (dynamic_reconfigure_callback s config).old_vel_xy = s.old_vel_xy ∧
    (dynamic_reconfigure_callback s config).filterx = s.filterx ∧
    (dynamic_reconfigure_callback s config).filtery = s.filtery ∧
    (dynamic_reconfigure_callback s config).old_command_vec = s.old_command_vec ∧
    (dynamic_reconfigure_callback s config).old_ref = s.old_ref ∧
    (dynamic_reconfigure_callback s config).switch_ref = s.switch_ref ∧
    (dynamic_reconfigure_callback s config).command = s.command ∧
    (dynamic_reconfigure_callback s config).command_vec = s.command_vec ∧
    (dynamic_reconfigure_callback s config).odo = s.odo ∧
    (dynamic_reconfigure_callback s config).vel_xy = s.vel_xy ∧
    (dynamic_reconfigure_callback s config).error_xy = s.error_xy ∧
    (dynamic_reconfigure_callback s config).curTime = s.curTime ∧
    (dynamic_reconfigure_callback s config).oldTime = s.oldTime ∧
    (dynamic_reconfigure_callback s config).navPing = s.navPing ∧
    (dynamic_reconfigure_callback s config).control_output_old = s.control_output_old := by
  unfold dynamic_reconfigure_callback
  split <;> exact ⟨rfl, rfl, rfl, rfl, rfl, rfl, rfl, rfl, rfl, rfl, rfl, rfl, rfl, rfl, rfl, rfl⟩

/-- C8, as stated, fails: a request with a negative windup limit, negative output limits
and non-positive gains is not rejected; its values replace the stored configuration. -/
theorem reconfigure_validation_counterexample :
    (dynamic_reconfigure_callback tunedState badConfig).gain_xy = ⟨-1, 0, -2⟩ ∧
    (dynamic_reconfigure_callback tunedState badConfig).wind_up = ⟨-1, -1⟩ ∧
    (dynamic_reconfigure_callback tunedState badConfig).max_output = ⟨-1, -3⟩ ∧
    (dynamic_reconfigure_callback tunedState badConfig).gain_xy ≠ tunedState.gain_xy ∧
    (dynamic_reconfigure_callback tunedState badConfig).wind_up ≠ tunedState.wind_up ∧
    (dynamic_reconfigure_callback tunedState badConfig).max_output ≠ tunedState.max_output := by
  refine ⟨?_, ?_, ?_, ?_, ?_, ?_⟩ <;>
  norm_num [dynamic_reconfigure_callback, tunedState, badConfig, initState, construct, dynamic_reconfigure_callback, zeroMemory]

/-- C8, amended: a reconfigure request is not validated; when it is applied (every call
but the start-up call, which the constructor makes), its values replace the stored gains, windup limit,
set-point weight, output limits and filter selectors as given, whatever they are. -/
theorem reconfigure_not_validated {F : Type} (s : Controller F) (config : Config)
    (h : s.first_reconfig = false) :
    (dynamic_reconfigure_callback s config).gain_xy = ⟨config.Kp, config.Ki, config.Kd⟩ ∧
    (dynamic_reconfigure_callback s config).wind_up = ⟨config.windup, config.windup⟩ ∧
    (dynamic_reconfigure_callback s config).beta = config.beta ∧
    (dynamic_reconfigure_callback s config).max_output = ⟨config.limit_x, config.limit_y⟩ ∧
    (dynamic_reconfigure_callback s config).derv_filter = config.derv_filter ∧
    (dynamic_reconfigure_callback s config).derv_median = config.derv_median ∧
    (dynamic_reconfigure_callback s config).derv_smith = config.derv_smith := by
  unfold dynamic_reconfigure_callback
  rw [h]
  exact ⟨rfl, rfl, rfl, rfl, rfl, rfl, rfl⟩

/-- The request `badConfig`, with a windup limit of −1, is stored as given. -/
theorem reconfigure_not_validated_witness :
    (dynamic_reconfigure_callback tunedState badConfig).wind_up =
      ⟨badConfig.windup, badConfig.windup⟩ :=
  (reconfigure_not_validated tunedState badConfig rfl).2.1

/-- C9: in a cycle whose reference is unchanged on an axis, with a positive error, a
positive time step and a previous integral `i ≥ 0`, the new integral of that axis is
`min 0.6 (i + error * dt)` (and `i_term_set` gives `min w (i + error * dt)` for every
windup limit `w ≥ 0`); in Scenario 3 (error +10 on both axes, time step 0.1, initial
integral 0) both integral terms are exactly 0.6 after `n` cycles, for every `n ≥ 1`. -/
theorem accumulate_and_clamp {F : Type} (flt : FilterVelocity F) (s : Controller F)
    (now : ℚ) (i e v w dt : ℚ) (odo_msg : Twist) (n : Nat)
    (he : 0 < e) (hdt : 0 < dt) (hi : 0 ≤ i) (hw : 0 ≤ w) (hn : 1 ≤ n) :
    i_term_set i e v v w dt = min w (i + e * dt) ∧
    (clamp (6 / 10) s.command.linear.x = s.old_command_vec.c0 →
      0 < 1 * clamp (6 / 10) s.command.linear.x - s.vel_xy.c0 →
      0 < now - s.oldTime → 0 ≤ s.i_term.c0 →
      (pid_control flt s now).1.i_term.c0 =
        min (6 / 10) (s.i_term.c0 +
          (1 * clamp (6 / 10) s.command.linear.x - s.vel_xy.c0) * (now - s.oldTime))) ∧
    (clamp (6 / 10) s.command.linear.y = s.old_command_vec.c1 →
      0 < 1 * clamp (6 / 10) s.command.linear.y - s.vel_xy.c1 →
      0 < now - s.oldTime → 0 ≤ s.i_term.c1 →
      (pid_control flt s now).1.i_term.c1 =
        min (6 / 10) (s.i_term.c1 +
          (1 * clamp (6 / 10) s.command.linear.y - s.vel_xy.c1) * (now - s.oldTime))) ∧
    (clamp (6 / 10) s.command.linear.x = s.old_command_vec.c0 →
      clamp (6 / 10) s.command.linear.y = s.old_command_vec.c1 →
      1 * s.old_command_vec.c0 - odo_msg.linear.x = 10 →
      1 * s.old_command_vec.c1 - odo_msg.linear.y = 10 →
      s.i_term.c0 = 0 → s.i_term.c1 = 0 →
      (cycles flt odo_msg (1 / 10) n s).i_term.c0 = 6 / 10 ∧
      (cycles flt odo_msg (1 / 10) n s).i_term.c1 = 6 / 10) := by
  refine ⟨i_term_set_accumulate i e v w dt he hdt hi hw, ?_, ?_, ?_⟩
  · intro hr hpos hd h0
    show i_term_set s.i_term.c0 _ (clamp (6 / 10) s.command.linear.x) s.old_command_vec.c0
      (6 / 10) (now - s.oldTime) = _
    rw [← hr]
    exact i_term_set_accumulate _ _ _ (6 / 10) _ hpos hd h0 (by norm_num)
  · intro hr hpos hd h0
    show i_term_set s.i_term.c1 _ (clamp (6 / 10) s.command.linear.y) s.old_command_vec.c1
      (6 / 10) (now - s.oldTime) = _
    rw [← hr]
    exact i_term_set_accumulate _ _ _ (6 / 10) _ hpos hd h0 (by norm_num)
  · intro hrx hry hex hey hix hiy
    obtain ⟨m, rfl⟩ : ∃ m, n = m + 1 := ⟨n - 1, by omega⟩
    obtain ⟨⟨h1, h2, h3⟩, h4, h5⟩ := scenario3_cycle flt s odo_msg hrx hry hex hey
      (by rw [hix]) (by rw [hiy])
    exact scenario3_cycles flt odo_msg m _ h1 h2 (by rw [h3]; exact hex)
      (by rw [h3]; exact hey) h4 h5

/-- Scenario 3 itself: windup limit 0.6, error +10 on both axes (reference 0, measurement
−10), time step 0.1, initial integral 0, 100 cycles. -/
theorem accumulate_and_clamp_witness :
    i_term_set 0 10 0 0 (6 / 10) (1 / 10) = min (6 / 10) (0 + 10 * (1 / 10)) ∧
    (cycles idFilter (xyTwist (-10) (-10)) (1 / 10) 100 initState).i_term.c0 = 6 / 10 ∧
    (cycles idFilter (xyTwist (-10) (-10)) (1 / 10) 100 initState).i_term.c1 = 6 / 10 :=
  have h := accumulate_and_clamp idFilter initState (1 / 10) 0 10 0 (6 / 10) (1 / 10)
    (xyTwist (-10) (-10)) 100 (by norm_num) (by norm_num) (le_refl 0) (by norm_num)
    (by norm_num)
  ⟨h.1, h.2.2.2 (by norm_num [clamp, initState, construct, dynamic_reconfigure_callback, zeroMemory, zeroTwist])
    (by norm_num [clamp, initState, construct, dynamic_reconfigure_callback, zeroMemory, zeroTwist])
    (by norm_num [initState, construct, dynamic_reconfigure_callback, zeroMemory, xyTwist])
    (by norm_num [initState, construct, dynamic_reconfigure_callback, zeroMemory, xyTwist]) rfl rfl⟩

/-- C10, as stated, fails: in Scenario 1 the x command is positive and the y command is
zero, but the x integral term is zero after the cycle, not positive: the reference changed
from the stored 0 to the clamped 0.6, which resets the integral. -/
theorem scenario1_counterexample :
    0 < scenario1.2.control_output.linear.x ∧
    scenario1.2.control_output.linear.y = 0 ∧
    scenario1.1.i_term.c0 = 0 ∧
    ¬ (0 < scenario1.1.i_term.c0) := by
  have h : scenario1.1.i_term.c0 = 0 := by
    norm_num [scenario1, OdoCallback, InputCallback, pid_control, initState, construct, dynamic_reconfigure_callback, zeroMemory,
      xyTwist, zeroTwist, i_term_set, clamp]
  refine ⟨?_, ?_, h, by rw [h]; exact lt_irrefl 0⟩
  · norm_num [scenario1, OdoCallback, InputCallback, pid_control, initState, construct, dynamic_reconfigure_callback, zeroMemory,
      xyTwist, zeroTwist, idFilter, i_term_set, clamp, gate, staticGain, Dbl.div, Dbl.mul,
      Dbl.add, Dbl.absLt, Dbl.clamp, abs_lt]
  · norm_num [scenario1, OdoCallback, InputCallback, pid_control, initState, construct, dynamic_reconfigure_callback, zeroMemory,
      xyTwist, zeroTwist, idFilter, i_term_set, clamp, gate, staticGain, Dbl.div, Dbl.mul,
      Dbl.add, Dbl.absLt, Dbl.clamp, abs_lt]

/-- C10, amended: from the zero initial state (zero integral, zero stored previous and
pre-switch reference, zero stored filtered velocity, a filter that returns 0 for a 0
sample), one cycle with reference `(r, 0)`, `r > 0`, measurement `(0, 0)` and time step
0.1 publishes a command with x > 0 and y = 0 and leaves the x integral term at exactly
zero (the reference change resets it); the x integral term is positive after the next
cycle with the same reference, the same measurement and the same time step. -/
theorem scenario1_first_cycle {F : Type} (flt : FilterVelocity F) (s : Controller F)
    (cmd_in odo_msg : Twist) (r : ℚ)
    (hi : s.i_term = ⟨0, 0⟩) (hc : s.old_command_vec = ⟨0, 0⟩) (ho : s.old_ref = ⟨0, 0⟩)
    (hv : s.old_vel_xy = ⟨0, 0⟩)
    (hfx : (flt.lowpass_filter s.filterx 0).1 = 0)
    (hfy : (flt.lowpass_filter s.filtery 0).1 = 0)
    (hr : 0 < r) (hcx : cmd_in.linear.x = r) (hcy : cmd_in.linear.y = 0)
    (hmx : odo_msg.linear.x = 0) (hmy : odo_msg.linear.y = 0) :
    0 < (OdoCallback flt (InputCallback s cmd_in) odo_msg
      (s.oldTime + 1 / 10)).2.control_output.linear.x ∧
    (OdoCallback flt (InputCallback s cmd_in) odo_msg
      (s.oldTime + 1 / 10)).2.control_output.linear.y = 0 ∧
    (OdoCallback flt (InputCallback s cmd_in) odo_msg
      (s.oldTime + 1 / 10)).1.i_term.c0 = 0 ∧
    0 < (OdoCallback flt (OdoCallback flt (InputCallback s cmd_in) odo_msg
      (s.oldTime + 1 / 10)).1 odo_msg (s.oldTime + 1 / 10 + 1 / 10)).1.i_term.c0 := by
  have hc0 : s.old_command_vec.c0 = 0 := by rw [hc]
  have hc1 : s.old_command_vec.c1 = 0 := by rw [hc]
  have ho1 : s.old_ref.c1 = 0 := by rw [ho]
  have hv0 : s.old_vel_xy.c0 = 0 := by rw [hv]
  have hv1 : s.old_vel_xy.c1 = 0 := by rw [hv]
  have hi0 : s.i_term.c0 = 0 := by rw [hi]
  have hi1 : s.i_term.c1 = 0 := by rw [hi]
  have hpos : 0 < clamp (6 / 10) r := clamp_pos _ _ (by norm_num) hr
  have hne : clamp (6 / 10) r ≠ 0 := ne_of_gt hpos
  have hz : clamp (6 / 10) 0 = 0 := clamp_zero _ (by norm_num)
  have hdt : s.oldTime + 1 / 10 - s.oldTime ≠ 0 := by norm_num
  have hdt2 : s.oldTime + 1 / 10 + 1 / 10 - (s.oldTime + 1 / 10) = 1 / 10 := by ring
  have hit : i_term_set 0 (1 * clamp (6 / 10) r - 0) (clamp (6 / 10) r) 0 (6 / 10)
      (s.oldTime + 1 / 10 - s.oldTime) = 0 := i_term_set_changed _ _ _ _ _ _ hne
  refine ⟨?_, ?_, ?_, ?_⟩
  · show 0 < clamp (5 / 10) (5 / 10 * gate (staticGain * clamp (6 / 10) cmd_in.linear.x)
        (clamp (6 / 10) cmd_in.linear.x) odo_msg.linear.x
        (if decide (clamp (6 / 10) cmd_in.linear.x ≠ s.old_command_vec.c0) = true
          then s.old_command_vec.c0 else s.old_ref.c0)
        (if decide (clamp (6 / 10) cmd_in.linear.y ≠ s.old_command_vec.c1) = true then true
          else if decide (clamp (6 / 10) cmd_in.linear.x ≠ s.old_command_vec.c0) = true
            then true else s.switch_ref) +
      Dbl.clamp (5 / 10) (Dbl.add
        ((1 * clamp (6 / 10) cmd_in.linear.x - odo_msg.linear.x) * (45 / 100) +
          i_term_set s.i_term.c0 (1 * clamp (6 / 10) cmd_in.linear.x - odo_msg.linear.x)
            (clamp (6 / 10) cmd_in.linear.x) s.old_command_vec.c0 (6 / 10)
            (s.oldTime + 1 / 10 - s.oldTime) * (15 / 100))
        (Dbl.mul (Dbl.div (-((flt.lowpass_filter s.filterx odo_msg.linear.x).1 -
          s.old_vel_xy.c0)) (s.oldTime + 1 / 10 - s.oldTime)) (35 / 100))))
    rw [hcx, hcy, hmx, hc0, hc1, hi0, hv0, hfx, hit, dbl_div_fin _ _ hdt]
    have hg : gate (staticGain * clamp (6 / 10) r) (clamp (6 / 10) r) 0
        (if decide (clamp (6 / 10) r ≠ 0) = true then 0 else s.old_ref.c0)
        (if decide (clamp (6 / 10) 0 ≠ 0) = true then true
          else if decide (clamp (6 / 10) r ≠ 0) = true then true else s.switch_ref) =
        staticGain * clamp (6 / 10) r := by
      rw [hz]
      simp [gate, hne, Dbl.div, Dbl.absLt]
      intro h
      norm_num at h
    rw [hg]
    simp only [Dbl.mul, Dbl.add, dbl_clamp_fin]
    apply clamp_pos _ _ (by norm_num)
    have hk : 0 < staticGain := by norm_num [staticGain]
    have hp : 0 < clamp (5 / 10) ((1 * clamp (6 / 10) r - 0) * (45 / 100) + 0 * (15 / 100) +
        (-(0 - 0) / (s.oldTime + 1 / 10 - s.oldTime)) * (35 / 100)) := by
      apply clamp_pos _ _ (by norm_num)
      simp only [sub_zero, neg_zero, zero_div, zero_mul, add_zero, one_mul]
      positivity
    have := mul_pos hk hpos
    linarith
  · show clamp (5 / 10) (5 / 10 * gate (staticGain * clamp (6 / 10) cmd_in.linear.y)
        (clamp (6 / 10) cmd_in.linear.y) odo_msg.linear.y
        (if decide (clamp (6 / 10) cmd_in.linear.y ≠ s.old_command_vec.c1) = true
          then s.old_command_vec.c1 else s.old_ref.c1)
        (if decide (clamp (6 / 10) cmd_in.linear.y ≠ s.old_command_vec.c1) = true then true
          else if decide (clamp (6 / 10) cmd_in.linear.x ≠ s.old_command_vec.c0) = true
            then true else s.switch_ref) +
      Dbl.clamp (5 / 10) (Dbl.add
        ((1 * clamp (6 / 10) cmd_in.linear.y - odo_msg.linear.y) * (45 / 100) +
          i_term_set s.i_term.c1 (1 * clamp (6 / 10) cmd_in.linear.y - odo_msg.linear.y)
            (clamp (6 / 10) cmd_in.linear.y) s.old_command_vec.c1 (6 / 10)
            (s.oldTime + 1 / 10 - s.oldTime) * (15 / 100))
        (Dbl.mul (Dbl.div (-((flt.lowpass_filter s.filtery odo_msg.linear.y).1 -
          s.old_vel_xy.c1)) (s.oldTime + 1 / 10 - s.oldTime)) (35 / 100)))) = 0
    rw [hcx, hcy, hmy, hc0, hc1, hi1, hv1, ho1, hfy, hz, dbl_div_fin _ _ hdt]
    have hi2 : i_term_set 0 (1 * 0 - 0) 0 0 (6 / 10) (s.oldTime + 1 / 10 - s.oldTime) = 0 := by
      rw [i_term_set_from_zero _ _ (6 / 10) _ (by norm_num)]
      simp only [mul_zero, sub_zero, zero_mul]
      exact hz
    rw [hi2]
    simp only [Dbl.mul, Dbl.add, dbl_clamp_fin, gate, mul_zero, ite_self]
    norm_num [clamp_zero]
  · show i_term_set s.i_term.c0 (1 * clamp (6 / 10) cmd_in.linear.x - odo_msg.linear.x)
      (clamp (6 / 10) cmd_in.linear.x) s.old_command_vec.c0 (6 / 10)
      (s.oldTime + 1 / 10 - s.oldTime) = 0
    rw [hcx, hmx, hc0, hi0]
    exact hit
  · show 0 < i_term_set
      (i_term_set s.i_term.c0 (1 * clamp (6 / 10) cmd_in.linear.x - odo_msg.linear.x)
        (clamp (6 / 10) cmd_in.linear.x) s.old_command_vec.c0 (6 / 10)
        (s.oldTime + 1 / 10 - s.oldTime))
      (1 * clamp (6 / 10) (clamp (6 / 10) cmd_in.linear.x) - odo_msg.linear.x)
      (clamp (6 / 10) (clamp (6 / 10) cmd_in.linear.x)) (clamp (6 / 10) cmd_in.linear.x)
      (6 / 10) (s.oldTime + 1 / 10 + 1 / 10 - (s.oldTime + 1 / 10))
    rw [hcx, hmx, hc0, hi0, hit, clamp_idem _ _ (by norm_num), hdt2,
      i_term_set_from_zero _ _ (6 / 10) _ (by norm_num)]
    apply clamp_pos _ _ (by norm_num)
    have : 0 < 1 * clamp (6 / 10) r - 0 := by linarith
    positivity

/-- Scenario 1 with `r = 1.0`, from the state as constructed. -/
theorem scenario1_first_cycle_witness :
    0 < (OdoCallback idFilter (InputCallback initState (xyTwist 1 0)) (xyTwist 0 0)
      (initState.oldTime + 1 / 10)).2.control_output.linear.x ∧
    (OdoCallback idFilter (InputCallback initState (xyTwist 1 0)) (xyTwist 0 0)
      (initState.oldTime + 1 / 10)).2.control_output.linear.y = 0 ∧
    (OdoCallback idFilter (InputCallback initState (xyTwist 1 0)) (xyTwist 0 0)
      (initState.oldTime + 1 / 10)).1.i_term.c0 = 0 ∧
    0 < (OdoCallback idFilter (OdoCallback idFilter (InputCallback initState (xyTwist 1 0))
      (xyTwist 0 0) (initState.oldTime + 1 / 10)).1 (xyTwist 0 0)
      (initState.oldTime + 1 / 10 + 1 / 10)).1.i_term.c0 :=
  scenario1_first_cycle idFilter initState (xyTwist 1 0) (xyTwist 0 0) 1 rfl rfl rfl rfl
    rfl rfl (by norm_num) rfl rfl rfl rfl

/-- C11: with a positive time step, on an axis whose measurement equals the clamped
reference, whose reference is unchanged from the previous cycle, whose integral term is
zero and whose filtered measurement equals the stored one, the cycle leaves a PID output
of exactly zero and an integral term of zero; if in addition the reference differs from
`old_ref`, the feedforward is gated to zero and the published command of that axis is
exactly zero. -/
theorem zero_error_steady_state {F : Type} (flt : FilterVelocity F) (s : Controller F)
    (now : ℚ) (hdt : 0 < now - s.oldTime) :
    (s.vel_xy.c0 = clamp (6 / 10) s.command.linear.x →
      clamp (6 / 10) s.command.linear.x = s.old_command_vec.c0 →
      s.i_term.c0 = 0 →
      (flt.lowpass_filter s.filterx s.vel_xy.c0).1 = s.old_vel_xy.c0 →
      (pid_control flt s now).2.control_output_pid.linear.x = 0 ∧
      (pid_control flt s now).1.i_term.c0 = 0 ∧
      (clamp (6 / 10) s.command.linear.x ≠ s.old_ref.c0 →
        (pid_control flt s now).2.control_output_feedforward.c0 = 0 ∧
        (pid_control flt s now).2.control_output.linear.x = 0)) ∧
    (s.vel_xy.c1 = clamp (6 / 10) s.command.linear.y →
      clamp (6 / 10) s.command.linear.y = s.old_command_vec.c1 →
      s.i_term.c1 = 0 →
      (flt.lowpass_filter s.filtery s.vel_xy.c1).1 = s.old_vel_xy.c1 →
      (pid_control flt s now).2.control_output_pid.linear.y = 0 ∧
      (pid_control flt s now).1.i_term.c1 = 0 ∧
      (clamp (6 / 10) s.command.linear.y ≠ s.old_ref.c1 →
        (pid_control flt s now).2.control_output_feedforward.c1 = 0 ∧
        (pid_control flt s now).2.control_output.linear.y = 0)) := by
  have hz : clamp (5 / 10) 0 = 0 := clamp_zero _ (by norm_num)
  constructor
  · intro hm hr hi hf
    have hi0 : (pid_control flt s now).1.i_term.c0 = 0 := by
      show i_term_set s.i_term.c0 (1 * clamp (6 / 10) s.command.linear.x - s.vel_xy.c0)
        (clamp (6 / 10) s.command.linear.x) s.old_command_vec.c0 (6 / 10) (now - s.oldTime) = 0
      rw [hi, hm, ← hr, i_term_set_from_zero _ _ (6 / 10) _ (by norm_num), one_mul, sub_self,
        zero_mul]
      exact clamp_zero _ (by norm_num)
    have hp : (pid_control flt s now).2.control_output_pid.linear.x = 0 := by
      show Dbl.clamp (5 / 10) (Dbl.add
        ((1 * clamp (6 / 10) s.command.linear.x - s.vel_xy.c0) * (45 / 100) +
          (pid_control flt s now).1.i_term.c0 * (15 / 100))
        (Dbl.mul (Dbl.div (-((flt.lowpass_filter s.filterx s.vel_xy.c0).1 - s.old_vel_xy.c0))
          (now - s.oldTime)) (35 / 100))) = 0
      rw [hi0, hf, hm, dbl_div_fin _ _ (ne_of_gt hdt)]
      simp only [Dbl.mul, Dbl.add, dbl_clamp_fin, one_mul, sub_self, zero_mul, add_zero,
        neg_zero, zero_div]
      exact hz
    refine ⟨hp, hi0, fun hne => ?_⟩
    have hg : (pid_control flt s now).2.control_output_feedforward.c0 = 0 := by
      show gate (staticGain * clamp (6 / 10) s.command.linear.x)
        (clamp (6 / 10) s.command.linear.x) s.vel_xy.c0
        (if decide (clamp (6 / 10) s.command.linear.x ≠ s.old_command_vec.c0) = true
          then s.old_command_vec.c0 else s.old_ref.c0) _ = 0
      have hd : decide (clamp (6 / 10) s.command.linear.x ≠ s.old_command_vec.c0) = false := by
        simp [hr]
      rw [hd, hm]
      simp [gate, Dbl.div, Dbl.absLt, sub_ne_zero.mpr hne]
    refine ⟨hg, ?_⟩
    show clamp (5 / 10) (5 / 10 * (pid_control flt s now).2.control_output_feedforward.c0 +
      (pid_control flt s now).2.control_output_pid.linear.x) = 0
    rw [hg, hp, mul_zero, add_zero]
    exact hz
  · intro hm hr hi hf
    have hi0 : (pid_control flt s now).1.i_term.c1 = 0 := by
      show i_term_set s.i_term.c1 (1 * clamp (6 / 10) s.command.linear.y - s.vel_xy.c1)
        (clamp (6 / 10) s.command.linear.y) s.old_command_vec.c1 (6 / 10) (now - s.oldTime) = 0
      rw [hi, hm, ← hr, i_term_set_from_zero _ _ (6 / 10) _ (by norm_num), one_mul, sub_self,
        zero_mul]
      exact clamp_zero _ (by norm_num)
    have hp : (pid_control flt s now).2.control_output_pid.linear.y = 0 := by
      show Dbl.clamp (5 / 10) (Dbl.add
        ((1 * clamp (6 / 10) s.command.linear.y - s.vel_xy.c1) * (45 / 100) +
          (pid_control flt s now).1.i_term.c1 * (15 / 100))
        (Dbl.mul (Dbl.div (-((flt.lowpass_filter s.filtery s.vel_xy.c1).1 - s.old_vel_xy.c1))
          (now - s.oldTime)) (35 / 100))) = 0
      rw [hi0, hf, hm, dbl_div_fin _ _ (ne_of_gt hdt)]
      simp only [Dbl.mul, Dbl.add, dbl_clamp_fin, one_mul, sub_self, zero_mul, add_zero,
        neg_zero, zero_div]
      exact hz
    refine ⟨hp, hi0, fun hne => ?_⟩
    have hg : (pid_control flt s now).2.control_output_feedforward.c1 = 0 := by
      show gate (staticGain * clamp (6 / 10) s.command.linear.y)
        (clamp (6 / 10) s.command.linear.y) s.vel_xy.c1
        (if decide (clamp (6 / 10) s.command.linear.y ≠ s.old_command_vec.c1) = true
          then s.old_command_vec.c1 else s.old_ref.c1) _ = 0
      have hd : decide (clamp (6 / 10) s.command.linear.y ≠ s.old_command_vec.c1) = false := by
        simp [hr]
      rw [hd, hm]
      simp [gate, Dbl.div, Dbl.absLt, sub_ne_zero.mpr hne]
    refine ⟨hg, ?_⟩
    show clamp (5 / 10) (5 / 10 * (pid_control flt s now).2.control_output_feedforward.c1 +
      (pid_control flt s now).2.control_output_pid.linear.y) = 0
    rw [hg, hp, mul_zero, add_zero]
    exact hz

/-- The state `settledState` with a time step of 0.1: the x reference 0.3 differs from
the pre-switch reference 0. -/
theorem zero_error_steady_state_witness :
    (pid_control idFilter settledState (1 / 10)).2.control_output_pid.linear.x = 0 ∧
    (pid_control idFilter settledState (1 / 10)).1.i_term.c0 = 0 ∧
    (pid_control idFilter settledState (1 / 10)).2.control_output_feedforward.c0 = 0 ∧
    (pid_control idFilter settledState (1 / 10)).2.control_output.linear.x = 0 := by
  have h := (zero_error_steady_state idFilter settledState (1 / 10)
    (by norm_num [settledState, initState, construct, dynamic_reconfigure_callback, zeroMemory])).1
    (by norm_num [settledState, initState, construct, dynamic_reconfigure_callback, zeroMemory, xyTwist, clamp])
    (by norm_num [settledState, initState, construct, dynamic_reconfigure_callback, zeroMemory, xyTwist, clamp])
    (by norm_num [settledState, initState, construct, dynamic_reconfigure_callback, zeroMemory])
    (by norm_num [settledState, initState, construct, dynamic_reconfigure_callback, zeroMemory, idFilter])
  exact ⟨h.1, h.2.1, h.2.2 (by norm_num [settledState, initState, construct, dynamic_reconfigure_callback, zeroMemory, xyTwist, clamp])⟩

/-- While `first_reconfig` is set a call of the reconfigure callback is ignored (it leaves
the stored gains, windup limit, set-point weight, output limits and filter selectors as
they are and only clears the flag); every call after it replaces them with the values of
the request. -/
theorem reconfigure_first_call_ignored {F : Type} (s : Controller F) (c1 c2 : Config) :
    (s.first_reconfig = true →
      (dynamic_reconfigure_callback s c1).gain_xy = s.gain_xy ∧
      (dynamic_reconfigure_callback s c1).wind_up = s.wind_up ∧
      (dynamic_reconfigure_callback s c1).beta = s.beta ∧
      (dynamic_reconfigure_callback s c1).max_output = s.max_output ∧
      (dynamic_reconfigure_callback s c1).derv_filter = s.derv_filter ∧
      (dynamic_reconfigure_callback s c1).derv_median = s.derv_median ∧
      (dynamic_reconfigure_callback s c1).derv_smith = s.derv_smith) ∧
    (dynamic_reconfigure_callback s c1).first_reconfig = false ∧
    (dynamic_reconfigure_callback (dynamic_reconfigure_callback s c1) c2).gain_xy =
      ⟨c2.Kp, c2.Ki, c2.Kd⟩ ∧
    (dynamic_reconfigure_callback (dynamic_reconfigure_callback s c1) c2).wind_up =
      ⟨c2.windup, c2.windup⟩ ∧
    (dynamic_reconfigure_callback (dynamic_reconfigure_callback s c1) c2).beta = c2.beta ∧
    (dynamic_reconfigure_callback (dynamic_reconfigure_callback s c1) c2).max_output =
      ⟨c2.limit_x, c2.limit_y⟩ ∧
    (dynamic_reconfigure_callback (dynamic_reconfigure_callback s c1) c2).derv_filter =
      c2.derv_filter ∧
    (dynamic_reconfigure_callback (dynamic_reconfigure_callback s c1) c2).derv_median =
      c2.derv_median ∧
    (dynamic_reconfigure_callback (dynamic_reconfigure_callback s c1) c2).derv_smith =
      c2.derv_smith := by
  have hf : (dynamic_reconfigure_callback s c1).first_reconfig = false := by
    unfold dynamic_reconfigure_callback
    split
    · rfl
    · next h => simpa using h
  refine ⟨fun h => ?_, hf, ?_⟩
  · unfold dynamic_reconfigure_callback
    rw [if_pos h]
    exact ⟨rfl, rfl, rfl, rfl, rfl, rfl, rfl⟩
  · generalize dynamic_reconfigure_callback s c1 = t at hf
    unfold dynamic_reconfigure_callback
    rw [hf]
    exact ⟨rfl, rfl, rfl, rfl, rfl, rfl, rfl⟩

/-- C12: the constructor makes the start-up call of the reconfigure callback itself, so on
every state the constructed controller reaches, every call of the reconfigure operation,
the first one after construction included, replaces the stored gains, windup limit,
set-point weight, output limits and filter selectors with the values of the request. -/
theorem reconfigure_uniform {F : Type} (flt : FilterVelocity F) (s0 : Controller F)
    (startup config : Config) (evs : List Event) :
    (dynamic_reconfigure_callback (run flt (construct s0 startup) evs) config).gain_xy =
      ⟨config.Kp, config.Ki, config.Kd⟩ ∧
    (dynamic_reconfigure_callback (run flt (construct s0 startup) evs) config).wind_up =
      ⟨config.windup, config.windup⟩ ∧
    (dynamic_reconfigure_callback (run flt (construct s0 startup) evs) config).beta =
      config.beta ∧
    (dynamic_reconfigure_callback (run flt (construct s0 startup) evs) config).max_output =
      ⟨config.limit_x, config.limit_y⟩ ∧
    (dynamic_reconfigure_callback (run flt (construct s0 startup) evs) config).derv_filter =
      config.derv_filter ∧
    (dynamic_reconfigure_callback (run flt (construct s0 startup) evs) config).derv_median =
      config.derv_median ∧
    (dynamic_reconfigure_callback (run flt (construct s0 startup) evs) config).derv_smith =
      config.derv_smith := by
  have hcf : (construct s0 startup).first_reconfig = false := by
    show (dynamic_reconfigure_callback s0 startup).first_reconfig = false
    unfold dynamic_reconfigure_callback
    split
    · rfl
    · next hf => simpa using hf
  have h := run_first_reconfig flt evs _ hcf
  generalize run flt (construct s0 startup) evs = t at h
  unfold dynamic_reconfigure_callback
  rw [h]
  exact ⟨rfl, rfl, rfl, rfl, rfl, rfl, rfl⟩

/-- C13: two states that differ only in the stored latency `navPing` give, for the same
reference, measurement and time, the same published command and cycle values and the same
state after the cycle apart from `navPing` (integral term, filtered velocity, filters and
reference bookkeeping included); and `PingCallback` changes no member but `navPing`. -/
theorem latency_advisory_only {F : Type} (flt : FilterVelocity F) (s : Controller F)
    (p ping now : ℚ) :
    (pid_control flt { s with navPing := p } now).2 = (pid_control flt s now).2 ∧
    (pid_control flt { s with navPing := p } now).1 =
      { (pid_control flt s now).1 with navPing := p } ∧
    (pid_control flt { s with navPing := p } now).1.i_term = (pid_control flt s now).1.i_term ∧
    (pid_control flt { s with navPing := p } now).1.old_vel_xy =
      (pid_control flt s now).1.old_vel_xy ∧
    (pid_control flt { s with navPing := p } now).1.old_command_vec =
      (pid_control flt s now).1.old_command_vec ∧
    (pid_control flt { s with navPing := p } now).1.old_ref =
      (pid_control flt s now).1.old_ref ∧
    (pid_control flt { s with navPing := p } now).1.switch_ref =
      (pid_control flt s now).1.switch_ref ∧
    PingCallback s ping = { s with navPing := ping * (1 / 1000) } ∧
    { PingCallback s ping with navPing := s.navPing } = s :=
  ⟨rfl, rfl, rfl, rfl, rfl, rfl, rfl, rfl, rfl⟩

/-- C14, the code at a failing input: with integral 0.1, error −1 and time step 0.1 (the
reference unchanged, windup limit 0.6) `i_term_set` leaves −0.1, which has crossed zero,
where max(0, i + error*dt) is 0; with integral 0.5 it leaves 0.3 and not 0.4.  The
mirrored case (integral −0.1, error +1) gives min(0, i + error*dt) = 0.  The same in a
cycle of the controller: integral terms (0.1, −0.1) with errors (−1, +1) become
(−0.1, 0). -/
theorem unwind_crosses_zero :
    i_term_set (1 / 10) (-1) 0 0 (6 / 10) (1 / 10) = -(1 / 10) ∧
    max 0 (1 / 10 + (-1) * (1 / 10) : ℚ) = 0 ∧
    i_term_set (5 / 10) (-1) 0 0 (6 / 10) (1 / 10) = 3 / 10 ∧
    max 0 (5 / 10 + (-1) * (1 / 10) : ℚ) = 4 / 10 ∧
    i_term_set (-(1 / 10)) 1 0 0 (6 / 10) (1 / 10) = 0 ∧
    min 0 (-(1 / 10) + 1 * (1 / 10) : ℚ) = 0 ∧
    unwindCycle.2.p_term = ⟨-1, 1⟩ ∧
    unwindCycle.2.dt = 1 / 10 ∧
    unwindCycle.1.i_term = ⟨-(1 / 10), 0⟩ := by
  have hc : clamp (6 / 10) 0 = 0 := clamp_zero _ (by norm_num)
  refine ⟨?_, ?_, ?_, ?_, ?_, ?_, ?_, ?_, ?_⟩
  · norm_num [i_term_set]
  · norm_num
  · norm_num [i_term_set]
  · norm_num
  · norm_num [i_term_set]
  · norm_num
  · show (⟨1 * clamp (6 / 10) 0 - 1, 1 * clamp (6 / 10) 0 - (-1)⟩ : Vector2d) = ⟨-1, 1⟩
    rw [hc]
    norm_num
  · show (1 / 10 : ℚ) - 0 = 1 / 10
    norm_num
  · show (⟨i_term_set (1 / 10) (1 * clamp (6 / 10) 0 - 1) (clamp (6 / 10) 0) 0 (6 / 10)
        (1 / 10 - 0),
      i_term_set (-(1 / 10)) (1 * clamp (6 / 10) 0 - (-1)) (clamp (6 / 10) 0) 0 (6 / 10)
        (1 / 10 - 0)⟩ : Vector2d) = ⟨-(1 / 10), 0⟩
    rw [hc]
    norm_num [i_term_set]

/-- C15, the code at a failing input: the reference changes from 0 to 0.4 on x with the
measurement at 0.35, so a switch is pending and the gate closes (ratio 0.125, feedforward
0); in the next cycle the reference is the same and the measurement is 0: the switch flag
is still set and the x feedforward is 0.37/9.81*180/3.14/12 * 0.4 = 3700/51339, not 0. -/
theorem gate_close_keeps_switch :
    gateClosed.1.switch_ref = true ∧
    gateClosed.1.old_ref.c0 = 0 ∧
    gateClosed.2.control_output_feedforward.c0 = 0 ∧
    afterGate.1.old_command_vec = gateClosed.1.old_command_vec ∧
    afterGate.1.switch_ref = true ∧
    afterGate.2.control_output_feedforward.c0 = 3700 / 51339 := by
  have hc0 : clamp (6 / 10) 0 = 0 := clamp_zero _ (by norm_num)
  have hc4 : clamp (6 / 10) (4 / 10) = 4 / 10 := by norm_num [clamp]
  have h1 : gateClosed.1.switch_ref = true := by
    show (if decide (clamp (6 / 10) 0 ≠ 0) = true then true
      else if decide (clamp (6 / 10) (4 / 10) ≠ 0) = true then true else false) = true
    rw [hc0, hc4]
    norm_num
  have h2 : gateClosed.1.old_ref = ⟨0, 0⟩ := by
    show (⟨if decide (clamp (6 / 10) (4 / 10) ≠ 0) = true then 0 else 0,
      if decide (clamp (6 / 10) 0 ≠ 0) = true then 0 else 0⟩ : Vector2d) = ⟨0, 0⟩
    simp
  have h3 : gateClosed.1.old_command_vec = ⟨4 / 10, 0⟩ := by
    show (⟨clamp (6 / 10) (4 / 10), clamp (6 / 10) 0⟩ : Vector2d) = ⟨4 / 10, 0⟩
    rw [hc0, hc4]
  have h4 : gateClosed.1.command.linear = ⟨4 / 10, 0, 0⟩ := by
    show (⟨clamp (6 / 10) (4 / 10), clamp (6 / 10) 0, 0⟩ : Vector3) = ⟨4 / 10, 0, 0⟩
    rw [hc0, hc4]
  have h5 : (⟨clamp (6 / 10) gateClosed.1.command.linear.x,
      clamp (6 / 10) gateClosed.1.command.linear.y⟩ : Vector2d) = ⟨4 / 10, 0⟩ := by
    rw [h4, hc0, hc4]
  refine ⟨h1, by rw [h2], ?_, ?_, ?_, ?_⟩
  · unfold gateClosed
    rw [odo_feedforward_x]
    show gate (staticGain * clamp (6 / 10) (4 / 10)) (clamp (6 / 10) (4 / 10)) (35 / 100)
      (if decide (clamp (6 / 10) (4 / 10) ≠ 0) = true then 0 else 0)
      (if decide (clamp (6 / 10) 0 ≠ 0) = true then true
        else if decide (clamp (6 / 10) (4 / 10) ≠ 0) = true then true else false) = 0
    rw [hc0, hc4]
    norm_num [gate, staticGain, Dbl.div, Dbl.absLt, abs_lt]
  · show (⟨clamp (6 / 10) gateClosed.1.command.linear.x,
      clamp (6 / 10) gateClosed.1.command.linear.y⟩ : Vector2d) = gateClosed.1.old_command_vec
    rw [h5, h3]
  · exact switch_ref_never_cleared idFilter _ _ h1
  · unfold afterGate
    rw [odo_feedforward_x, h1, h2, h3, h4]
    show gate (staticGain * clamp (6 / 10) (4 / 10)) (clamp (6 / 10) (4 / 10)) 0
      (if decide (clamp (6 / 10) (4 / 10) ≠ 4 / 10) = true then 4 / 10 else 0)
      (if decide (clamp (6 / 10) 0 ≠ 0) = true then true
        else if decide (clamp (6 / 10) (4 / 10) ≠ 4 / 10) = true then true else true) = _
    rw [hc0, hc4]
    norm_num [gate, staticGain, Dbl.div, Dbl.absLt, abs_lt]

/-- C16, as stated, fails: the filtered measurement 0 equals the stored filtered
measurement 0, the reference 0.3 is unchanged, and the x integral term after the cycle
is 0.3 * 0.1 = 0.03, not zero. -/
theorem stale_measurement_counterexample :
    (idFilter.lowpass_filter staleState.filterx staleState.vel_xy.c0).1 =
      staleState.old_vel_xy.c0 ∧
    (pid_control idFilter staleState (1 / 10)).1.old_vel_xy.c0 = staleState.old_vel_xy.c0 ∧
    clamp (6 / 10) staleState.command.linear.x = staleState.old_command_vec.c0 ∧
    (pid_control idFilter staleState (1 / 10)).1.i_term.c0 = 3 / 100 ∧
    (pid_control idFilter staleState (1 / 10)).1.i_term.c0 ≠ 0 := by
  have h : (pid_control idFilter staleState (1 / 10)).1.i_term.c0 = 3 / 100 := by
    norm_num [staleState, pid_control, initState, construct, dynamic_reconfigure_callback, zeroMemory, xyTwist, zeroTwist,
      i_term_set, clamp]
  refine ⟨?_, ?_, ?_, h, by rw [h]; norm_num⟩
  · norm_num [staleState, idFilter, initState, construct, dynamic_reconfigure_callback, zeroMemory]
  · norm_num [staleState, pid_control, idFilter, initState, construct, dynamic_reconfigure_callback, zeroMemory]
  · norm_num [staleState, initState, construct, dynamic_reconfigure_callback, zeroMemory, xyTwist, clamp]

/-- C16, amended: in a cycle whose filtered measurement equals the filtered measurement
of the previous cycle the integral term is not forced to zero; the filtered measurement
does not enter the integral update at all (another filter, filter state or stored
filtered velocity gives the same integral terms).  On such a cycle an axis's integral
term is zero when its clamped reference changed, and with an unchanged reference it is
the value `i_term_set` accumulates: from a zero integral, `error * dt` clamped to ±0.6. -/
theorem stale_measurement_integral {F : Type} (flt flt2 : FilterVelocity F)
    (s : Controller F) (now : ℚ) (v2 : Vector2d) (a b : F) :
    (pid_control flt2 { s with old_vel_xy := v2, filterx := a, filtery := b } now).1.i_term =
      (pid_control flt s now).1.i_term ∧
    ((flt.lowpass_filter s.filterx s.vel_xy.c0).1 = s.old_vel_xy.c0 →
      (clamp (6 / 10) s.command.linear.x ≠ s.old_command_vec.c0 →
        (pid_control flt s now).1.i_term.c0 = 0) ∧
      (clamp (6 / 10) s.command.linear.x = s.old_command_vec.c0 → s.i_term.c0 = 0 →
        (pid_control flt s now).1.i_term.c0 =
          clamp (6 / 10)
            ((1 * clamp (6 / 10) s.command.linear.x - s.vel_xy.c0) * (now - s.oldTime)))) ∧
    ((flt.lowpass_filter s.filtery s.vel_xy.c1).1 = s.old_vel_xy.c1 →
      (clamp (6 / 10) s.command.linear.y ≠ s.old_command_vec.c1 →
        (pid_control flt s now).1.i_term.c1 = 0) ∧
      (clamp (6 / 10) s.command.linear.y = s.old_command_vec.c1 → s.i_term.c1 = 0 →
        (pid_control flt s now).1.i_term.c1 =
          clamp (6 / 10)
            ((1 * clamp (6 / 10) s.command.linear.y - s.vel_xy.c1) * (now - s.oldTime)))) := by
  refine ⟨rfl, fun _ => ⟨fun h => i_term_set_changed _ _ _ _ _ _ h, fun hr hi => ?_⟩,
    fun _ => ⟨fun h => i_term_set_changed _ _ _ _ _ _ h, fun hr hi => ?_⟩⟩
  · show i_term_set s.i_term.c0 _ (clamp (6 / 10) s.command.linear.x) s.old_command_vec.c0
      (6 / 10) (now - s.oldTime) = _
    rw [hi, ← hr]
    exact i_term_set_from_zero _ _ (6 / 10) _ (by norm_num)
  · show i_term_set s.i_term.c1 _ (clamp (6 / 10) s.command.linear.y) s.old_command_vec.c1
      (6 / 10) (now - s.oldTime) = _
    rw [hi, ← hr]
    exact i_term_set_from_zero _ _ (6 / 10) _ (by norm_num)

/-- The stale cycle of `staleState`: reference unchanged, integral 0, error 0.3. -/
theorem stale_measurement_integral_witness :
    (pid_control idFilter staleState (1 / 10)).1.i_term.c0 =
      clamp (6 / 10)
        ((1 * clamp (6 / 10) staleState.command.linear.x - staleState.vel_xy.c0) *
          (1 / 10 - staleState.oldTime)) :=
  ((stale_measurement_integral idFilter idFilter staleState (1 / 10) ⟨0, 0⟩ () ()).2.1
    (by norm_num [staleState, idFilter, initState, construct, dynamic_reconfigure_callback, zeroMemory])).2
    (by norm_num [staleState, initState, construct, dynamic_reconfigure_callback, zeroMemory, xyTwist, clamp])
    (by norm_num [staleState, initState, construct, dynamic_reconfigure_callback, zeroMemory])

/-- C17, the code at a failing input: from the state as constructed (stored set-point
weight 0.9), with reference (0.5, 0) and measurement (0, 0), the error of the cycle is
0.5 on x, where 0.9 * 0.5 − 0 is 0.45; after an applied reconfigure that stores the
weight 0.5 the error of the same cycle is still 0.5, where 0.5 * 0.5 − 0 is 0.25. -/
theorem stored_weight_unused :
    initState.beta = 9 / 10 ∧
    (OdoCallback idFilter (InputCallback initState (xyTwist (5 / 10) 0)) (xyTwist 0 0)
      (1 / 10)).2.p_term.c0 = 5 / 10 ∧
    initState.beta * clamp (6 / 10) (5 / 10) - 0 = 45 / 100 ∧
    (dynamic_reconfigure_callback tunedState halfWeight).beta = 5 / 10 ∧
    (OdoCallback idFilter (InputCallback (dynamic_reconfigure_callback tunedState halfWeight)
      (xyTwist (5 / 10) 0)) (xyTwist 0 0) (1 / 10)).2.p_term.c0 = 5 / 10 ∧
    (dynamic_reconfigure_callback tunedState halfWeight).beta * clamp (6 / 10) (5 / 10) - 0 =
      25 / 100 := by
  refine ⟨?_, ?_, ?_, ?_, ?_, ?_⟩ <;>
  norm_num [dynamic_reconfigure_callback, tunedState, halfWeight, OdoCallback,
    InputCallback, pid_control, initState, construct, dynamic_reconfigure_callback, zeroMemory, xyTwist, zeroTwist, clamp]

/-- C18: on an axis whose clamped reference `r` differs from the entry of `old_ref` the
gate reads, the feedforward of the cycle is `0.37/9.81*180/3.14/12 * r` when the switch
flag is set and `|(r − measurement)/(r − old_ref)| ≥ 0.25`, and 0 when the flag is not set
or that ratio is below 0.25; the published command is
`clamp(0.5*feedforward + pidOutput, ±0.5)`; and for a time step different from zero
`pidOutput = clamp(0.45*error + 0.15*integralTerm + 0.35*derivativeTerm, ±0.5)` with
`error = 1*r − measurement`, the integral term the cycle leaves, and
`derivativeTerm = −(filtered − previous filtered)/dt`. -/
theorem feedforward_and_blend {F : Type} (flt : FilterVelocity F) (s : Controller F)
    (now : ℚ) :
    (clamp (6 / 10) s.command.linear.x ≠ (pid_control flt s now).1.old_ref.c0 →
      ((pid_control flt s now).1.switch_ref = true ∧
          0.25 ≤ |(clamp (6 / 10) s.command.linear.x - s.vel_xy.c0) /
            (clamp (6 / 10) s.command.linear.x - (pid_control flt s now).1.old_ref.c0)| →
        (pid_control flt s now).2.control_output_feedforward.c0 =
          0.37 / 9.81 * 180 / 3.14 / 12 * clamp (6 / 10) s.command.linear.x) ∧
      ((pid_control flt s now).1.switch_ref = false ∨
          |(clamp (6 / 10) s.command.linear.x - s.vel_xy.c0) /
            (clamp (6 / 10) s.command.linear.x - (pid_control flt s now).1.old_ref.c0)| < 0.25 →
        (pid_control flt s now).2.control_output_feedforward.c0 = 0)) ∧
    (clamp (6 / 10) s.command.linear.y ≠ (pid_control flt s now).1.old_ref.c1 →
      ((pid_control flt s now).1.switch_ref = true ∧
          0.25 ≤ |(clamp (6 / 10) s.command.linear.y - s.vel_xy.c1) /
            (clamp (6 / 10) s.command.linear.y - (pid_control flt s now).1.old_ref.c1)| →
        (pid_control flt s now).2.control_output_feedforward.c1 =
          0.37 / 9.81 * 180 / 3.14 / 12 * clamp (6 / 10) s.command.linear.y) ∧
      ((pid_control flt s now).1.switch_ref = false ∨
          |(clamp (6 / 10) s.command.linear.y - s.vel_xy.c1) /
            (clamp (6 / 10) s.command.linear.y - (pid_control flt s now).1.old_ref.c1)| < 0.25 →
        (pid_control flt s now).2.control_output_feedforward.c1 = 0)) ∧
    (pid_control flt s now).2.control_output.linear.x =
      min 0.5 (max (-0.5) (0.5 * (pid_control flt s now).2.control_output_feedforward.c0 +
        (pid_control flt s now).2.control_output_pid.linear.x)) ∧
    (pid_control flt s now).2.control_output.linear.y =
      min 0.5 (max (-0.5) (0.5 * (pid_control flt s now).2.control_output_feedforward.c1 +
        (pid_control flt s now).2.control_output_pid.linear.y)) ∧
    (now - s.oldTime ≠ 0 →
      (pid_control flt s now).2.d_term_x =
        Dbl.fin (-((flt.lowpass_filter s.filterx s.vel_xy.c0).1 - s.old_vel_xy.c0) /
          (now - s.oldTime)) ∧
      (pid_control flt s now).2.d_term_y =
        Dbl.fin (-((flt.lowpass_filter s.filtery s.vel_xy.c1).1 - s.old_vel_xy.c1) /
          (now - s.oldTime)) ∧
      (pid_control flt s now).2.control_output_pid.linear.x =
        min 0.5 (max (-0.5)
          (0.45 * (1 * clamp (6 / 10) s.command.linear.x - s.vel_xy.c0) +
            0.15 * (pid_control flt s now).1.i_term.c0 +
            0.35 * (-((flt.lowpass_filter s.filterx s.vel_xy.c0).1 - s.old_vel_xy.c0) /
              (now - s.oldTime)))) ∧
      (pid_control flt s now).2.control_output_pid.linear.y =
        min 0.5 (max (-0.5)
          (0.45 * (1 * clamp (6 / 10) s.command.linear.y - s.vel_xy.c1) +
            0.15 * (pid_control flt s now).1.i_term.c1 +
            0.35 * (-((flt.lowpass_filter s.filtery s.vel_xy.c1).1 - s.old_vel_xy.c1) /
              (now - s.oldTime))))) := by
  have hq : (0.25 : ℚ) = 25 / 100 := by norm_num
  have hh : (0.5 : ℚ) = 5 / 10 := by norm_num
  have hk : (0.37 / 9.81 * 180 / 3.14 / 12 : ℚ) = staticGain := by norm_num [staticGain]
  have hdiv : ∀ a b : ℚ, b ≠ 0 → Dbl.div a b = Dbl.fin (a / b) := by
    intro a b hb
    unfold Dbl.div
    rw [if_pos hb]
  have hgate : ∀ (ff cmd vel oref : ℚ) (sw : Bool), cmd ≠ oref →
      gate ff cmd vel oref sw =
        if sw = true ∧ 25 / 100 ≤ |(cmd - vel) / (cmd - oref)| then ff else 0 := by
    intro ff cmd vel oref sw hne
    unfold gate
    rw [hdiv _ _ (sub_ne_zero.mpr hne)]
    simp only [Dbl.absLt, decide_eq_true_eq]
    by_cases h1 : |(cmd - vel) / (cmd - oref)| < 25 / 100
    · rw [if_pos (Or.inl h1), if_neg (fun hh => absurd h1 (not_lt.mpr hh.2))]
    · cases sw with
      | false => simp
      | true => simp [h1, not_lt.mp h1]
  rw [hq, hh, hk]
  refine ⟨fun h => ?_, fun h => ?_, rfl, rfl,
    fun hdt => ⟨hdiv _ _ hdt, hdiv _ _ hdt, ?_, ?_⟩⟩
  · have hg := hgate (staticGain * clamp (6 / 10) s.command.linear.x)
      (clamp (6 / 10) s.command.linear.x) s.vel_xy.c0 (pid_control flt s now).1.old_ref.c0
      (pid_control flt s now).1.switch_ref h
    constructor
    · intro hc
      exact hg.trans (if_pos hc)
    · intro hc
      refine hg.trans (if_neg ?_)
      rintro ⟨h1, h2⟩
      rcases hc with hc | hc
      · rw [h1] at hc; exact Bool.noConfusion hc
      · exact absurd hc (not_lt.mpr h2)
  · have hg := hgate (staticGain * clamp (6 / 10) s.command.linear.y)
      (clamp (6 / 10) s.command.linear.y) s.vel_xy.c1 (pid_control flt s now).1.old_ref.c1
      (pid_control flt s now).1.switch_ref h
    constructor
    · intro hc
      exact hg.trans (if_pos hc)
    · intro hc
      refine hg.trans (if_neg ?_)
      rintro ⟨h1, h2⟩
      rcases hc with hc | hc
      · rw [h1] at hc; exact Bool.noConfusion hc
      · exact absurd hc (not_lt.mpr h2)
  · show Dbl.clamp (5 / 10) (Dbl.add
        ((1 * clamp (6 / 10) s.command.linear.x - s.vel_xy.c0) * (45 / 100) +
          (pid_control flt s now).1.i_term.c0 * (15 / 100))
      (Dbl.mul (Dbl.div (-((flt.lowpass_filter s.filterx s.vel_xy.c0).1 - s.old_vel_xy.c0))
        (now - s.oldTime)) (35 / 100))) = _
    rw [hdiv _ _ hdt]
    simp only [Dbl.mul, Dbl.add, Dbl.clamp]
    congr 2
    norm_num
    ring
  · show Dbl.clamp (5 / 10) (Dbl.add
        ((1 * clamp (6 / 10) s.command.linear.y - s.vel_xy.c1) * (45 / 100) +
          (pid_control flt s now).1.i_term.c1 * (15 / 100))
      (Dbl.mul (Dbl.div (-((flt.lowpass_filter s.filtery s.vel_xy.c1).1 - s.old_vel_xy.c1))
        (now - s.oldTime)) (35 / 100))) = _
    rw [hdiv _ _ hdt]
    simp only [Dbl.mul, Dbl.add, Dbl.clamp]
    congr 2
    norm_num
    ring

/-- The second cycle after the reference (0.3, 0.4) arrived, with measurement (0.1, 0.1)
and time step 0.1: on x the switch is pending, the ratio is 2/3, the error 0.2, the
integral 0.02 and the derivative −1, so the feedforward is 925/17113, the PID output
−0.257 and the command −3935541/17113000. -/
theorem feedforward_and_blend_witness :
    (pid_control idFilter blendState (2 / 10)).2.control_output_feedforward.c0 =
      925 / 17113 ∧
    (pid_control idFilter blendState (2 / 10)).2.control_output_pid.linear.x =
      -(257 / 1000) ∧
    (pid_control idFilter blendState (2 / 10)).2.control_output.linear.x =
      -(3935541 / 17113000) := by
  have hc3 : clamp (6 / 10) (3 / 10) = 3 / 10 := by norm_num [clamp]
  have hc4 : clamp (6 / 10) (4 / 10) = 4 / 10 := by norm_num [clamp]
  have hcmd : blendState.command.linear.x = 3 / 10 := hc3
  have hold : blendState.old_command_vec.c0 = 3 / 10 := hc3
  have hvel : blendState.vel_xy.c0 = 1 / 10 := rfl
  have hov : blendState.old_vel_xy.c0 = 0 := rfl
  have hot : blendState.oldTime = 1 / 10 := rfl
  have horef : blendState.old_ref.c0 = 0 := by
    show (if decide (clamp (6 / 10) (3 / 10) ≠ 0) = true then 0 else 0) = (0 : ℚ)
    simp
  have hsw : blendState.switch_ref = true := by
    show (if decide (clamp (6 / 10) (4 / 10) ≠ 0) = true then true
      else if decide (clamp (6 / 10) (3 / 10) ≠ 0) = true then true else false) = true
    rw [hc3, hc4]
    norm_num
  have hi : blendState.i_term.c0 = 0 := by
    show i_term_set 0 (1 * clamp (6 / 10) (3 / 10) - 0) (clamp (6 / 10) (3 / 10)) 0 (6 / 10)
      (1 / 10 - 0) = 0
    rw [hc3]
    norm_num [i_term_set]
  have hor2 : (pid_control idFilter blendState (2 / 10)).1.old_ref.c0 = 0 := by
    show (if decide (clamp (6 / 10) blendState.command.linear.x ≠
      blendState.old_command_vec.c0) = true then blendState.old_command_vec.c0
      else blendState.old_ref.c0) = 0
    rw [hcmd, hold, horef, hc3]
    simp
  have hsw2 : (pid_control idFilter blendState (2 / 10)).1.switch_ref = true :=
    switch_ref_never_cleared idFilter blendState (2 / 10) hsw
  have hi2 : (pid_control idFilter blendState (2 / 10)).1.i_term.c0 = 1 / 50 := by
    show i_term_set blendState.i_term.c0
      (1 * clamp (6 / 10) blendState.command.linear.x - blendState.vel_xy.c0)
      (clamp (6 / 10) blendState.command.linear.x) blendState.old_command_vec.c0 (6 / 10)
      (2 / 10 - blendState.oldTime) = 1 / 50
    rw [hi, hcmd, hold, hvel, hot, hc3]
    norm_num [i_term_set]
  have h := feedforward_and_blend idFilter blendState (2 / 10)
  have hff : (pid_control idFilter blendState (2 / 10)).2.control_output_feedforward.c0 =
      925 / 17113 := by
    refine (((h.1 (by rw [hor2, hcmd, hc3]; norm_num)).1 ⟨hsw2, ?_⟩).trans ?_)
    · rw [hor2, hcmd, hvel, hc3]
      norm_num [le_abs]
    · rw [hcmd, hc3]
      norm_num
  have hpid : (pid_control idFilter blendState (2 / 10)).2.control_output_pid.linear.x =
      -(257 / 1000) := by
    refine ((h.2.2.2.2 (by rw [hot]; norm_num)).2.2.1).trans ?_
    rw [hi2, hcmd, hvel, hov, hot, hc3]
    show min (0.5 : ℚ) (max (-0.5) (0.45 * (1 * (3 / 10) - 1 / 10) + 0.15 * (1 / 50) +
      0.35 * (-(1 / 10 - 0) / (2 / 10 - 1 / 10)))) = -(257 / 1000)
    norm_num
  refine ⟨hff, hpid, ?_⟩
  rw [h.2.2.1, hff, hpid]
  norm_num

/-- C19: the reference a cycle stores and echoes is the raw reference clamped to
[−0.6, 0.6] on each axis, and clamping is idempotent; when two consecutive cycles receive
raw references that clamp to the same value on an axis, the second cycle does not reset
that axis's integral term (it is the accumulation of `error * dt` on the integral of the
first cycle, cut at ±0.6), keeps `old_ref` on that axis, and sets the switch flag only
when the other axis changed. -/
theorem change_detection_on_clamped_reference {F : Type} (flt : FilterVelocity F)
    (s : Controller F) (cmd1 odo1 cmd2 odo2 : Twist) (now1 now2 v : ℚ) :
    ((OdoCallback flt (InputCallback s cmd1) odo1 now1).1.command.linear.x =
        min 0.6 (max (-0.6) cmd1.linear.x) ∧
      (OdoCallback flt (InputCallback s cmd1) odo1 now1).1.command.linear.y =
        min 0.6 (max (-0.6) cmd1.linear.y) ∧
      (OdoCallback flt (InputCallback s cmd1) odo1 now1).1.old_command_vec =
        ⟨min 0.6 (max (-0.6) cmd1.linear.x), min 0.6 (max (-0.6) cmd1.linear.y)⟩ ∧
      (OdoCallback flt (InputCallback s cmd1) odo1 now1).2.ref_vel.linear.x =
        min 0.6 (max (-0.6) cmd1.linear.x) ∧
      (OdoCallback flt (InputCallback s cmd1) odo1 now1).2.ref_vel.linear.y =
        min 0.6 (max (-0.6) cmd1.linear.y)) ∧
    (clamp (6 / 10) v = min 0.6 (max (-0.6) v) ∧
      min 0.6 (max (-0.6) (min 0.6 (max (-0.6) v))) = min 0.6 (max (-0.6) v)) ∧
    (min 0.6 (max (-0.6) cmd2.linear.x) = min 0.6 (max (-0.6) cmd1.linear.x) →
      (OdoCallback flt (InputCallback (OdoCallback flt (InputCallback s cmd1) odo1 now1).1
          cmd2) odo2 now2).1.i_term.c0 =
        max (-0.6) (min 0.6
          (if 1 * min 0.6 (max (-0.6) cmd1.linear.x) - odo2.linear.x < 0 ∧
              0 < (OdoCallback flt (InputCallback s cmd1) odo1 now1).1.i_term.c0 then
            max 0 ((OdoCallback flt (InputCallback s cmd1) odo1 now1).1.i_term.c0 +
              (1 * min 0.6 (max (-0.6) cmd1.linear.x) - odo2.linear.x) * (now2 - now1)) +
              (1 * min 0.6 (max (-0.6) cmd1.linear.x) - odo2.linear.x) * (now2 - now1)
          else if 0 < 1 * min 0.6 (max (-0.6) cmd1.linear.x) - odo2.linear.x ∧
              (OdoCallback flt (InputCallback s cmd1) odo1 now1).1.i_term.c0 < 0 then
            min 0 ((OdoCallback flt (InputCallback s cmd1) odo1 now1).1.i_term.c0 +
              (1 * min 0.6 (max (-0.6) cmd1.linear.x) - odo2.linear.x) * (now2 - now1))
          else (OdoCallback flt (InputCallback s cmd1) odo1 now1).1.i_term.c0 +
            (1 * min 0.6 (max (-0.6) cmd1.linear.x) - odo2.linear.x) * (now2 - now1))) ∧
      (OdoCallback flt (InputCallback (OdoCallback flt (InputCallback s cmd1) odo1 now1).1
          cmd2) odo2 now2).1.old_ref.c0 =
        (OdoCallback flt (InputCallback s cmd1) odo1 now1).1.old_ref.c0 ∧
      (OdoCallback flt (InputCallback (OdoCallback flt (InputCallback s cmd1) odo1 now1).1
          cmd2) odo2 now2).1.switch_ref =
        (if min 0.6 (max (-0.6) cmd2.linear.y) ≠ min 0.6 (max (-0.6) cmd1.linear.y) then true
         else (OdoCallback flt (InputCallback s cmd1) odo1 now1).1.switch_ref)) ∧
    (min 0.6 (max (-0.6) cmd2.linear.y) = min 0.6 (max (-0.6) cmd1.linear.y) →
      (OdoCallback flt (InputCallback (OdoCallback flt (InputCallback s cmd1) odo1 now1).1
          cmd2) odo2 now2).1.i_term.c1 =
        max (-0.6) (min 0.6
          (if 1 * min 0.6 (max (-0.6) cmd1.linear.y) - odo2.linear.y < 0 ∧
              0 < (OdoCallback flt (InputCallback s cmd1) odo1 now1).1.i_term.c1 then
            max 0 ((OdoCallback flt (InputCallback s cmd1) odo1 now1).1.i_term.c1 +
              (1 * min 0.6 (max (-0.6) cmd1.linear.y) - odo2.linear.y) * (now2 - now1)) +
              (1 * min 0.6 (max (-0.6) cmd1.linear.y) - odo2.linear.y) * (now2 - now1)
          else if 0 < 1 * min 0.6 (max (-0.6) cmd1.linear.y) - odo2.linear.y ∧
              (OdoCallback flt (InputCallback s cmd1) odo1 now1).1.i_term.c1 < 0 then
            min 0 ((OdoCallback flt (InputCallback s cmd1) odo1 now1).1.i_term.c1 +
              (1 * min 0.6 (max (-0.6) cmd1.linear.y) - odo2.linear.y) * (now2 - now1))
          else (OdoCallback flt (InputCallback s cmd1) odo1 now1).1.i_term.c1 +
            (1 * min 0.6 (max (-0.6) cmd1.linear.y) - odo2.linear.y) * (now2 - now1))) ∧
      (OdoCallback flt (InputCallback (OdoCallback flt (InputCallback s cmd1) odo1 now1).1
          cmd2) odo2 now2).1.old_ref.c1 =
        (OdoCallback flt (InputCallback s cmd1) odo1 now1).1.old_ref.c1 ∧
      (OdoCallback flt (InputCallback (OdoCallback flt (InputCallback s cmd1) odo1 now1).1
          cmd2) odo2 now2).1.switch_ref =
        (if min 0.6 (max (-0.6) cmd2.linear.x) ≠ min 0.6 (max (-0.6) cmd1.linear.x) then true
         else (OdoCallback flt (InputCallback s cmd1) odo1 now1).1.switch_ref)) := by
  have h6 : (0.6 : ℚ) = 6 / 10 := by norm_num
  have hcl : ∀ x : ℚ, min (6 / 10) (max (-(6 / 10)) x) = clamp (6 / 10) x := fun _ => rfl
  have hidem : ∀ x : ℚ, clamp (6 / 10) (clamp (6 / 10) x) = clamp (6 / 10) x := by
    intro x
    unfold clamp
    rw [max_eq_right (le_min (by norm_num) (le_max_left _ _)), min_eq_right (min_le_left _ _)]
  have hacc : ∀ i e r w dt : ℚ, i_term_set i e r r w dt =
      max (-w) (min w
        (if e < 0 ∧ 0 < i then max 0 (i + e * dt) + e * dt
         else if 0 < e ∧ i < 0 then min 0 (i + e * dt) else i + e * dt)) := by
    intro i e r w dt
    have hmin : ∀ x : ℚ, (if x > w then w else x) = min w x := by
      intro x
      split_ifs with h
      · rw [min_eq_left (le_of_lt h)]
      · rw [min_eq_right (not_lt.mp h)]
    have hmax : ∀ x : ℚ, (if x < -w then -w else x) = max (-w) x := by
      intro x
      split_ifs with h
      · rw [max_eq_left (le_of_lt h)]
      · rw [max_eq_right (not_lt.mp h)]
    unfold i_term_set
    simp only [ne_eq, not_true_eq_false, if_false, hmin, hmax, gt_iff_lt]
    by_cases h1 : e < 0 ∧ 0 < i
    · have h2 : ¬ (0 < e ∧ max 0 (i + e * dt) < 0) :=
        fun h => absurd h.1 (not_lt.mpr (le_of_lt h1.1))
      rw [if_pos h1, if_pos h1, if_neg h2]
    · rw [if_neg h1, if_neg h1]
  simp only [h6, hcl]
  refine ⟨⟨rfl, rfl, rfl, rfl, rfl⟩, ⟨trivial, hidem _⟩,
    fun h => ?_, fun h => ?_⟩
  · refine ⟨?_, ?_, ?_⟩
    · show i_term_set (OdoCallback flt (InputCallback s cmd1) odo1 now1).1.i_term.c0
        (1 * clamp (6 / 10) cmd2.linear.x - odo2.linear.x) (clamp (6 / 10) cmd2.linear.x)
        (clamp (6 / 10) cmd1.linear.x) (6 / 10) (now2 - now1) = _
      rw [h]
      exact hacc _ _ _ _ _
    · show (if decide (clamp (6 / 10) cmd2.linear.x ≠ clamp (6 / 10) cmd1.linear.x) = true
        then clamp (6 / 10) cmd1.linear.x
        else (OdoCallback flt (InputCallback s cmd1) odo1 now1).1.old_ref.c0) = _
      simp [h]
    · show (if decide (clamp (6 / 10) cmd2.linear.y ≠ clamp (6 / 10) cmd1.linear.y) = true
        then true
        else if decide (clamp (6 / 10) cmd2.linear.x ≠ clamp (6 / 10) cmd1.linear.x) = true
          then true else (OdoCallback flt (InputCallback s cmd1) odo1 now1).1.switch_ref) = _
      simp [h]
  · refine ⟨?_, ?_, ?_⟩
    · show i_term_set (OdoCallback flt (InputCallback s cmd1) odo1 now1).1.i_term.c1
        (1 * clamp (6 / 10) cmd2.linear.y - odo2.linear.y) (clamp (6 / 10) cmd2.linear.y)
        (clamp (6 / 10) cmd1.linear.y) (6 / 10) (now2 - now1) = _
      rw [h]
      exact hacc _ _ _ _ _
    · show (if decide (clamp (6 / 10) cmd2.linear.y ≠ clamp (6 / 10) cmd1.linear.y) = true
        then clamp (6 / 10) cmd1.linear.y
        else (OdoCallback flt (InputCallback s cmd1) odo1 now1).1.old_ref.c1) = _
      simp [h]
    · show (if decide (clamp (6 / 10) cmd2.linear.y ≠ clamp (6 / 10) cmd1.linear.y) = true
        then true
        else if decide (clamp (6 / 10) cmd2.linear.x ≠ clamp (6 / 10) cmd1.linear.x) = true
          then true else (OdoCallback flt (InputCallback s cmd1) odo1 now1).1.switch_ref) = _
      simp [h]

/-- The raw x references 0.7 and 0.9 of two consecutive cycles (measurement 0, time step
0.1) both clamp to 0.6: the first cycle stores and echoes 0.6, the second leaves the x
integral at 0.6 * 0.1 = 3/50 and keeps `old_ref(0) = 0` and the switch flag. -/
theorem change_detection_on_clamped_reference_witness :
    rawFirst.1.command.linear.x = 6 / 10 ∧
    rawFirst.2.ref_vel.linear.x = 6 / 10 ∧
    rawFirst.1.old_command_vec = ⟨6 / 10, 0⟩ ∧
    rawSecond.1.i_term.c0 = 3 / 50 ∧
    rawSecond.1.old_ref.c0 = 0 ∧
    rawSecond.1.switch_ref = true := by
  have h := change_detection_on_clamped_reference idFilter initState (xyTwist (7 / 10) 0)
    (xyTwist 0 0) (xyTwist (9 / 10) 0) (xyTwist 0 0) (1 / 10) (2 / 10) 0
  have hc7 : clamp (6 / 10) (7 / 10) = 6 / 10 := by norm_num [clamp]
  have hc0 : clamp (6 / 10) 0 = 0 := clamp_zero _ (by norm_num)
  have hi : rawFirst.1.i_term.c0 = 0 := by
    show i_term_set 0 (1 * clamp (6 / 10) (7 / 10) - 0) (clamp (6 / 10) (7 / 10)) 0 (6 / 10)
      (1 / 10 - 0) = 0
    rw [hc7]
    norm_num [i_term_set]
  have ho : rawFirst.1.old_ref.c0 = 0 := by
    show (if decide (clamp (6 / 10) (7 / 10) ≠ 0) = true then 0 else 0) = (0 : ℚ)
    simp
  have hs : rawFirst.1.switch_ref = true := by
    show (if decide (clamp (6 / 10) 0 ≠ 0) = true then true
      else if decide (clamp (6 / 10) (7 / 10) ≠ 0) = true then true else false) = true
    rw [hc0, hc7]
    norm_num
  have h2 := h.2.2.1 (by norm_num [xyTwist])
  refine ⟨h.1.1.trans (by norm_num [xyTwist]), h.1.2.2.2.1.trans (by norm_num [xyTwist]),
    h.1.2.2.1.trans (by norm_num [xyTwist]), ?_, h2.2.1.trans ho, ?_⟩
  · refine h2.1.trans ?_
    have hi2 : (OdoCallback idFilter (InputCallback initState (xyTwist (7 / 10) 0))
        (xyTwist 0 0) (1 / 10)).1.i_term.c0 = 0 := hi
    rw [hi2]
    norm_num [xyTwist]
  · refine h2.2.2.trans ?_
    have hs2 : (OdoCallback idFilter (InputCallback initState (xyTwist (7 / 10) 0))
        (xyTwist 0 0) (1 / 10)).1.switch_ref = true := hs
    rw [hs2]
    simp

end PIPD
